import Mathlib

/-!
Verification of the NetoLight telemetry validation and multi-resolution
aggregation pipeline (`src/api/api`): the binary state codec
(`services.encode_state_data` / `services.decode_state_data`), the
validation and alarm rules of `StreetlampStateService.create`, the
watermark (stream state) store (`repositories.StreamStateRepository`),
the four rollup aggregation services, the raw ingestion batch consumer
(`main.proc_streetlamp_state_batch` / `main.proc_streetlamp_states`),
the dashboard summary calculator
(`DashboardService._get_energy_savings_summary`) and the datetime
truncation utilities (`utils.round_to_hour` / `round_to_day` /
`round_to_week` / `round_to_month`).

Modelling conventions, chosen once for the whole file:

* Machine doubles are modelled by their 8-byte little-endian IEEE-754
  representation (a list of byte values) wherever only the bit pattern
  matters (the codec): CPython's `struct.pack('<d', x)` /
  `struct.unpack('<d', b)` is a plain memory copy, so pack and unpack
  are the identity on the byte vector.
* Where arithmetic on float values matters (validation thresholds,
  summary formulas) floats are modelled as `PyFloat` = NaN or an exact
  rational.  Infinities are not modelled; no claim involves them (an
  infinite value falls to the same range rule as any out-of-range
  number).  Instances used in theorems are chosen so that the exact
  rational value coincides with the double value computed by CPython.
* Timestamps handled by the database (all columns are
  `DateTime(timezone=True)`) are modelled as integers: wall-clock
  seconds in the default timezone (`America/Santo_Domingo`, a fixed
  UTC-4 offset with no daylight saving).  Aware datetimes compare and
  store by instant, and `convert_to_default_tz` preserves the instant,
  so it is the identity in this representation.  `date_trunc` in the
  database and the `round_to_*` helpers in Python truncate the default
  timezone wall clock (session timezone = default timezone).
* The Python-level distinction between timezone-aware and naive
  datetime objects, which the database erases, is modelled separately
  by the `PyDateTime` structure (wall seconds plus an optional tzinfo
  offset); the `utils.py` functions are embedded on `PyDateTime`.
* Fallible database / queue calls are embedded in `Except`; an
  environment oracle chooses which calls raise, and the structure of
  the Python code (which `try` blocks exist and what they catch) is
  translated directly.
-/

/-! ## Base64 (used by `encode_state_data` / `decode_state_data`)

`base64.b64encode` / `base64.b64decode` on byte strings, embedded on
lists of byte values.  The decoder is the strict parser accepting
exactly the well-padded, alphabet-only strings `b64encode` produces;
on other input `base64.b64decode` raises (the codec's MalformedPayload
case), modelled as `none`. -/

/-- Byte value of the base64 alphabet character for a sextet
(`A`-`Z`, `a`-`z`, `0`-`9`, `+`, `/`). -/
def b64chr (n : Nat) : Nat :=
  if n < 26 then 65 + n
  else if n < 52 then 97 + (n - 26)
  else if n < 62 then 48 + (n - 52)
  else if n = 62 then 43
  else 47

/-- Sextet value of a base64 alphabet byte; `none` off the alphabet. -/
def b64val (c : Nat) : Option Nat :=
  if 65 ≤ c ∧ c ≤ 90 then some (c - 65)
  else if 97 ≤ c ∧ c ≤ 122 then some (26 + (c - 97))
  else if 48 ≤ c ∧ c ≤ 57 then some (52 + (c - 48))
  else if c = 43 then some 62
  else if c = 47 then some 63
  else none

/-- The `=` padding byte. -/
def b64pad : Nat := 61

/-- Base64 encoding of a byte list (`base64.b64encode`). -/
def b64encode : List Nat → List Nat
  | [] => []
  | [a] => [b64chr (a / 4), b64chr (a % 4 * 16), b64pad, b64pad]
  | [a, b] =>
      [b64chr (a / 4), b64chr (a % 4 * 16 + b / 16), b64chr (b % 16 * 4),
        b64pad]
  | a :: b :: c :: rest =>
      b64chr (a / 4) :: b64chr (a % 4 * 16 + b / 16) ::
        b64chr (b % 16 * 4 + c / 64) :: b64chr (c % 64) :: b64encode rest

/-- Base64 decoding (`base64.b64decode`); `none` on malformed input. -/
def b64decode : List Nat → Option (List Nat)
  | [] => some []
  | w :: x :: y :: z :: rest =>
      match b64val w, b64val x with
      | some vw, some vx =>
          if y = b64pad ∧ z = b64pad ∧ rest = [] then
            some [vw * 4 + vx / 16]
          else
            match b64val y with
            | some vy =>
                if z = b64pad ∧ rest = [] then
                  some [vw * 4 + vx / 16, vx % 16 * 16 + vy / 4]
                else
                  match b64val z, b64decode rest with
                  | some vz, some tail =>
                      some ((vw * 4 + vx / 16) :: (vx % 16 * 16 + vy / 4) ::
                        (vy % 4 * 64 + vz) :: tail)
                  | _, _ => none
            | none => none
      | _, _ => none
  | _ => none

/-! ## The state codec (`services.py` lines 1262-1298)

`schemas.StreetlampDeviceState` restricted to what the codec
reads/writes: six doubles (as 8-byte vectors, see the conventions
above) and one boolean. -/

/-- The decoded state struct: six doubles (little-endian byte vectors)
and the on/off status. -/
structure StreetlampDeviceState where
  voltage : List Nat
  current : List Nat
  energy_out : List Nat
  energy_in : List Nat
  power : List Nat
  frequency : List Nat
  status_on : Bool
deriving DecidableEq

/-- The 64-byte blob built inside `encode_state_data` before base64:
each double prefixed by its tag byte (`V I M E W F`), then `S`, the
status byte, and eight `0xFF` padding bytes. -/
def encode_state_raw (sds : StreetlampDeviceState) : List Nat :=
  86 :: (sds.voltage ++ 73 :: (sds.current ++ 77 :: (sds.energy_out ++
    69 :: (sds.energy_in ++ 87 :: (sds.power ++ 70 :: (sds.frequency ++
      83 :: (if sds.status_on then 1 else 0) ::
        [255, 255, 255, 255, 255, 255, 255, 255]))))))

/-- `services.encode_state_data`: tag-prefixed packed doubles, status
byte, `0xFF` padding, base64-encoded. -/
def encode_state_data (sds : StreetlampDeviceState) : List Nat :=
  b64encode (encode_state_raw sds)

/-- The positional slice `raw[i + 1 + 8 * i : 9 * (i + 1)]` taken by
`decode_state_data` for field `i`. -/
def sliceField (raw : List Nat) (i : Nat) : List Nat :=
  (raw.drop (i + 1 + 8 * i)).take (9 * (i + 1) - (i + 1 + 8 * i))

/-- `services.decode_state_data`: base64-decode, slice the seven
positional fields, unpack six doubles and read the status byte.  The
length guards model `struct.unpack` raising on a short slice and
`x[0]` raising on an empty slice (MalformedPayload on truncated
input). -/
def decode_state_data (s : List Nat) : Option StreetlampDeviceState :=
  match b64decode s with
  | none => none
  | some raw =>
      if (sliceField raw 0).length = 8 ∧ (sliceField raw 1).length = 8 ∧
          (sliceField raw 2).length = 8 ∧ (sliceField raw 3).length = 8 ∧
          (sliceField raw 4).length = 8 ∧ (sliceField raw 5).length = 8 ∧
          sliceField raw 6 ≠ [] then
        some
          { voltage := sliceField raw 0
            current := sliceField raw 1
            energy_out := sliceField raw 2
            energy_in := sliceField raw 3
            power := sliceField raw 4
            frequency := sliceField raw 5
            status_on := (sliceField raw 6).headD 0 ≠ 0 }
      else none

/-! ## Python float values with NaN (validation arithmetic)

Comparisons against NaN are false and arithmetic on NaN yields NaN,
exactly as for IEEE doubles in Python. -/

/-- A Python float: NaN or a finite exact value. -/
inductive PyFloat where
  | nan : PyFloat
  | fin (q : ℚ) : PyFloat
deriving DecidableEq

/-- `math.isnan`. -/
def PyFloat.isnan : PyFloat → Bool
  | .nan => true
  | .fin _ => false

/-- Python `<` on floats (false when either side is NaN). -/
def pfLt : PyFloat → PyFloat → Bool
  | .fin a, .fin b => a < b
  | _, _ => false

/-- Python `>` on floats (false when either side is NaN). -/
def pfGt (a b : PyFloat) : Bool := pfLt b a

/-- Python `-` on floats. -/
def pfSub : PyFloat → PyFloat → PyFloat
  | .fin a, .fin b => .fin (a - b)
  | _, _ => .nan

/-- Python `/` on floats.  The pipeline never divides by zero here
(the divisor `t` is replaced by 1 when it is 0), so the zero case is
irrelevant junk. -/
def pfDiv : PyFloat → PyFloat → PyFloat
  | .fin a, .fin b => .fin (a / b)
  | _, _ => .nan

/-! ## Alarm and validation model (`services.py` lines 1301-1466)

The candidate reading carries the fields `create` reads; the database
row (`models.StreetlampState`) carries exact values, since only
readings whose checked fields are finite are ever inserted.  The
provenance columns (tenant, application, device profile, ...) are
copied verbatim by the code and are dropped from the model. -/

/-- `models.AlarmType`. -/
inductive AlarmType where
  | INVALID_VALUE | OVER_VOLTAGE | OVER_CURRENT | OVER_POWER
  | OVER_ENERGY | OVER_FREQUENCY
deriving DecidableEq

/-- `models.AlarmSeverity`. -/
inductive AlarmSeverity where
  | CRITICAL | MAJOR | MINOR
deriving DecidableEq

/-- A candidate reading as decoded inside `create` (before any
insert): device id, aware timestamp (instant, in seconds), the decoded
state values, and the producer-assigned deduplication id. -/
structure StateCandidate where
  deduplication_id : String
  dev_eui : String
  time : ℤ
  dev_voltage : PyFloat
  dev_current : PyFloat
  dev_power : PyFloat
  dev_frequency : PyFloat
  dev_energy_in : PyFloat
  dev_energy_out : PyFloat
  dev_status_on : Bool
deriving DecidableEq

/-- A persisted raw reading row (`models.StreetlampState`, trimmed to
the columns the pipeline reads). -/
structure StoredState where
  dev_eui : String
  time : ℤ
  dev_voltage : ℚ
  dev_current : ℚ
  dev_power : ℚ
  dev_frequency : ℚ
  dev_energy_in : ℚ
  dev_energy_out : ℚ
  dev_status_on : Bool
deriving DecidableEq

/-- An alarm row (`_make_alarm`): timestamp, kind, severity, cleared
flag and a snapshot of the offending metrics. -/
structure StreetlampAlarm where
  time : ℤ
  atype : AlarmType
  severity : AlarmSeverity
  cleared : Bool
  dev_eui : String
  dev_voltage : PyFloat
  dev_current : PyFloat
  dev_power : PyFloat
  dev_frequency : PyFloat
  dev_energy_in : PyFloat
  dev_energy_out : PyFloat
  dev_status_on : Bool
deriving DecidableEq

/-- `_make_alarm ss atype severity` (`services.py` lines 1301-1319). -/
def make_alarm (ss : StateCandidate) (atype : AlarmType)
    (severity : AlarmSeverity) : StreetlampAlarm :=
  { time := ss.time
    atype := atype
    severity := severity
    cleared := false
    dev_eui := ss.dev_eui
    dev_voltage := ss.dev_voltage
    dev_current := ss.dev_current
    dev_power := ss.dev_power
    dev_frequency := ss.dev_frequency
    dev_energy_in := ss.dev_energy_in
    dev_energy_out := ss.dev_energy_out
    dev_status_on := ss.dev_status_on }

/-- Outcome of the validation rules inside `create`. -/
inductive ValidationOutcome where
  | reject (atype : AlarmType) (severity : AlarmSeverity)
  | accept
deriving DecidableEq

/-- Rule 1 (`INVALID_VALUE`): any of the four checked fields is NaN or
outside `[0.0001, 1000]`. -/
def invalid_value_rule (ss : StateCandidate) : Bool :=
  ss.dev_voltage.isnan || pfLt ss.dev_voltage (.fin (1 / 10000)) ||
    pfGt ss.dev_voltage (.fin 1000) ||
    ss.dev_current.isnan || pfLt ss.dev_current (.fin (1 / 10000)) ||
    pfGt ss.dev_current (.fin 1000) ||
    ss.dev_power.isnan || pfLt ss.dev_power (.fin (1 / 10000)) ||
    pfGt ss.dev_power (.fin 1000) ||
    ss.dev_frequency.isnan || pfLt ss.dev_frequency (.fin (1 / 10000)) ||
    pfGt ss.dev_frequency (.fin 1000)

/-- Rule 2 (`OVER_POWER`): `power > 95`. -/
def over_power_rule (ss : StateCandidate) : Bool :=
  pfGt ss.dev_power (.fin 95)

/-- Rule 3 (`OVER_FREQUENCY`): `frequency > 65`. -/
def over_frequency_rule (ss : StateCandidate) : Bool :=
  pfGt ss.dev_frequency (.fin 65)

/-- Rule 4 (`OVER_ENERGY`) against a prior reading, with the code's
divisor: `t = floor((time - prior.time) / 1h)` replaced by 1 exactly
when that floor is 0. -/
def over_energy_rule (ss : StateCandidate) (prior : StoredState) : Bool :=
  let t0 : ℤ := Int.fdiv (ss.time - prior.time) 3600
  let t : ℤ := if t0 = 0 then 1 else t0
  pfGt (pfDiv (pfSub ss.dev_energy_in (.fin prior.dev_energy_in))
    (.fin (t : ℚ))) (.fin 100000)

/-- The rule chain of `StreetlampStateService.create` (`services.py`
lines 1398-1459), given the latest persisted reading of the device.
`min_valid_value = 0.0001`, `max_valid_value = 1000.0`,
`max_power = 95.0`, `max_frequency = 65`, `max_ecr = 100000`.  The
energy-rate divisor is `t = (ss.time - ls.time).total_seconds() //
3600`, replaced by 1 exactly when it is 0 (times are whole seconds, so
the float floor division equals integer floor division). -/
def validate_state (ss : StateCandidate) (ls : Option StoredState) :
    ValidationOutcome :=
  if invalid_value_rule ss then .reject .INVALID_VALUE .MINOR
  else if over_power_rule ss then .reject .OVER_POWER .CRITICAL
  else if over_frequency_rule ss then .reject .OVER_FREQUENCY .CRITICAL
  else
    match ls with
    | some prior =>
        if over_energy_rule ss prior then .reject .OVER_ENERGY .MAJOR
        else .accept
    | none => .accept

/-- The divisor the spec prescribes for the energy-rate rule:
`max(1, floor((time - prior.time) in hours))` (spec section 4.2 rule
4).  Stated from worded spec, for comparison with the code's divisor
in `validate_state`. -/
def specEnergyDivisor (ssTime priorTime : ℤ) : ℤ :=
  max 1 (Int.fdiv (ssTime - priorTime) 3600)

/-! ## Dashboard summary calculator (`services.py` lines 2073-2091)

`round(x, n)` in Python rounds to the nearest multiple of `10 ^ (-n)`,
ties to even (instances in theorems are chosen away from floating
representation edge cases). -/

/-- Python `round(x, d)` on an exact value: nearest multiple of
`10 ^ (-d)`, ties to even. -/
def pyRound (d : Nat) (x : ℚ) : ℚ :=
  let y : ℚ := x * (10 : ℚ) ^ d
  let f : ℤ := ⌊y⌋
  let r : ℚ := y - f
  let n : ℤ :=
    if r < 1 / 2 then f
    else if 1 / 2 < r then f + 1
    else if f % 2 = 0 then f else f + 1
  (n : ℚ) / (10 : ℚ) ^ d

/-- `schemas.StreetlampStateSummary`, trimmed to the fields the energy
summary calculators read. -/
structure StreetlampStateSummary where
  ndevices : ℕ
  energy_in : ℚ
  on_time : ℚ
deriving DecidableEq

/-- `schemas.StreetlampsEnergySavings`. -/
structure StreetlampsEnergySavings where
  percentage : ℚ
  avg_in_watts : ℚ
deriving DecidableEq

/-- `DashboardService._get_energy_savings_summary` (`services.py`
lines 2073-2091): baseline `total = 250 * (on_time / 3600)`, savings
`total - energy_in`, percentage `round(100 * savings / total, 1)`
guarded by `total != 0`, average `round(savings / ndevices, 2)`
guarded by `ndevices != 0`. -/
def get_energy_savings_summary (summ : Option StreetlampStateSummary) :
    StreetlampsEnergySavings :=
  match summ with
  | none => { percentage := 0, avg_in_watts := 0 }
  | some summ =>
      let total : ℚ := 250 * (summ.on_time / 3600)
      let savings : ℚ := total - summ.energy_in
      let percentage :=
        pyRound 1 (if total ≠ 0 then 100 * savings / total else 0)
      let avg_in_watts :=
        pyRound 2 (if summ.ndevices ≠ 0 then savings / summ.ndevices else 0)
      { percentage := percentage, avg_in_watts := avg_in_watts }

/-- The savings percentage as the spec words it (section 4.7):
`100 * (baseline - energy_in) / baseline` with
`baseline = 250 * (on_time_seconds / 3600)`, `0` when the baseline is
`0` -- with no rounding.  Stated from the spec for comparison with
`get_energy_savings_summary`. -/
def specSavingsPct (energy_in on_time : ℚ) : ℚ :=
  let baseline : ℚ := 250 * (on_time / 3600)
  if baseline = 0 then 0 else 100 * (baseline - energy_in) / baseline

/-! ## Datetime utilities (`utils.py` lines 70-98)

`PyDateTime` is a Python `datetime`: wall-clock seconds plus the
`tzinfo` attribute, modelled as the UTC offset in seconds (`none` for
a naive datetime).  The default timezone `America/Santo_Domingo` is
UTC-4 year round. -/

/-- Offset of `America/Santo_Domingo` in seconds. -/
def sdOffset : ℤ := -4 * 3600

/-- A Python `datetime`: wall-clock seconds since the epoch of its own
clock, and the `tzinfo` offset (`none` when naive). -/
structure PyDateTime where
  wall : ℤ
  tz : Option ℤ
deriving DecidableEq

/-- The instant of a datetime in epoch seconds; a naive datetime is
read in the given fallback offset (Python uses the system local zone
where this matters). -/
def PyDateTime.instant (localOff : ℤ) (d : PyDateTime) : ℤ :=
  d.wall - d.tz.getD localOff

/-- `datetime.astimezone` to a target offset: same instant, new
`tzinfo`; a naive input is interpreted in the local offset. -/
def astimezone (localOff target : ℤ) (d : PyDateTime) : PyDateTime :=
  { wall := d.instant localOff + target, tz := some target }

/-- `utils.round_to_hour`: `dt.replace(microsecond=0, second=0,
minute=0)` -- zero the sub-hour part of the wall clock, keeping
`tzinfo`. -/
def round_to_hour (dt : PyDateTime) : PyDateTime :=
  { wall := dt.wall - dt.wall.emod 3600, tz := dt.tz }

/-- `utils.round_to_day`: `datetime.combine(dt, time.min)` -- the wall
date at midnight; `time.min` carries no `tzinfo`, so the result is
naive. -/
def round_to_day (dt : PyDateTime) : PyDateTime :=
  { wall := dt.wall - dt.wall.emod 86400, tz := none }

/-- `datetime.weekday()`: 0 = Monday.  The epoch day (1970-01-01) was
a Thursday (weekday 3). -/
def pyWeekday (dt : PyDateTime) : ℤ :=
  (Int.fdiv dt.wall 86400 + 3).emod 7

/-- `utils.round_to_week`: `round_to_day(dt) -
timedelta(days=dt.weekday())`; naive like `round_to_day`. -/
def round_to_week (dt : PyDateTime) : PyDateTime :=
  { wall := (round_to_day dt).wall - pyWeekday dt * 86400, tz := none }

/-- Days from the civil epoch 1970-01-01 of a Gregorian date
(proleptic); standard civil-calendar arithmetic, used to embed
`datetime(year, month, 1)`. -/
def daysFromCivil (y m d : ℤ) : ℤ :=
  let y2 := if m ≤ 2 then y - 1 else y
  let era := Int.fdiv (if 0 ≤ y2 then y2 else y2 - 399) 400
  let yoe := y2 - era * 400
  let mp := (m + 9).emod 12
  let doy := Int.fdiv (153 * mp + 2) 5 + d - 1
  let doe := yoe * 365 + Int.fdiv yoe 4 - Int.fdiv yoe 100 + doy
  era * 146097 + doe - 719468

/-- The Gregorian civil date of an epoch day number (inverse of
`daysFromCivil`). -/
def civilFromDays (z0 : ℤ) : ℤ × ℤ × ℤ :=
  let z := z0 + 719468
  let era := Int.fdiv (if 0 ≤ z then z else z - 146096) 146097
  let doe := z - era * 146097
  let yoe := Int.fdiv
    (doe - Int.fdiv doe 1460 + Int.fdiv doe 36524 - Int.fdiv doe 146096) 365
  let y := yoe + era * 400
  let doy := doe - (365 * yoe + Int.fdiv yoe 4 - Int.fdiv yoe 100)
  let mp := Int.fdiv (5 * doy + 2) 153
  let d := doy - Int.fdiv (153 * mp + 2) 5 + 1
  let m := if mp < 10 then mp + 3 else mp - 9
  (if m ≤ 2 then y + 1 else y, m, d)

/-- `utils.round_to_month`: `datetime(year=dt.year, month=dt.month,
day=1, tzinfo=ZoneInfo('America/Santo_Domingo'))` -- first of the wall
month, with the default timezone attached. -/
def round_to_month (dt : PyDateTime) : PyDateTime :=
  let c := civilFromDays (Int.fdiv dt.wall 86400)
  { wall := daysFromCivil c.1 c.2.1 1 * 86400, tz := some sdOffset }

/-- `utils.convert_to_default_tz`: `astimezone` to the default
timezone. -/
def convert_to_default_tz (localOff : ℤ) (dt : PyDateTime) : PyDateTime :=
  astimezone localOff sdOffset dt

/-! ## Instant-level truncations

The wall-clock (default timezone) shadows of the `round_to_*` helpers
and of the database `date_trunc` calls, on the integer timestamp
representation used by the persisted state model. -/

/-- Hour truncation on stored timestamps (`round_to_hour`,
`date_trunc('hour', ...)`). -/
def iRoundHour (t : ℤ) : ℤ := t - t.emod 3600

/-- Day truncation on stored timestamps (`round_to_day`,
`date_trunc('day', ...)`). -/
def iRoundDay (t : ℤ) : ℤ := t - t.emod 86400

/-- Week truncation (Monday) on stored timestamps (`round_to_week`,
`date_trunc('week', ...)`). -/
def iRoundWeek (t : ℤ) : ℤ :=
  iRoundDay t - (Int.fdiv t 86400 + 3).emod 7 * 86400

/-- Month truncation on stored timestamps (`round_to_month`,
`date_trunc('month', ...)`). -/
def iRoundMonth (t : ℤ) : ℤ :=
  let c := civilFromDays (Int.fdiv t 86400)
  daysFromCivil c.1 c.2.1 1 * 86400

/-! ## Watermark store (`repositories.StreamStateRepository`) -/

/-- A `models.StreamState` row (without the surrogate id). -/
structure StreamSt where
  producer_ts : Option ℤ
  consumer_ts : Option ℤ
deriving DecidableEq

/-- `StreamStateRepository.find_by_name`: first row whose lower-cased
name matches the lower-cased key. -/
def find_by_name (l : List (String × StreamSt)) (nm : String) :
    Option StreamSt :=
  (l.find? (fun p => p.1.toLower == nm.toLower)).map Prod.snd

/-- `StreamStateRepository.update_producer`: insert-or-update on the
exact name (unique index), last-write-wins on `producer_ts`. -/
def update_producer (l : List (String × StreamSt)) (nm : String) (ts : ℤ) :
    List (String × StreamSt) :=
  if l.any (fun p => p.1 == nm) then
    l.map (fun p =>
      if p.1 == nm then (p.1, { p.2 with producer_ts := some ts }) else p)
  else
    l ++ [(nm, { producer_ts := some ts, consumer_ts := none })]

/-- `StreamStateRepository.update_consumer`: update-only on the exact
name; a no-op when the named watermark does not exist. -/
def update_consumer (l : List (String × StreamSt)) (nm : String)
    (ts : Option ℤ) : List (String × StreamSt) :=
  l.map (fun p =>
    if p.1 == nm then (p.1, { p.2 with consumer_ts := ts }) else p)

/-- Stream names (`services.py`): `streetlamp:state:<resolution>:<eui>`. -/
def hourly_stream_name (d : String) : String :=
  "streetlamp:state:hourly:" ++ d

/-- Daily stream name. -/
def daily_stream_name (d : String) : String :=
  "streetlamp:state:daily:" ++ d

/-- Weekly stream name. -/
def weekly_stream_name (d : String) : String :=
  "streetlamp:state:weekly:" ++ d

/-- Monthly stream name. -/
def monthly_stream_name (d : String) : String :=
  "streetlamp:state:monthly:" ++ d

/-! ## Persisted pipeline state and the repository queries -/

/-- A rollup row; the bucket column is named `hour` / `day` / `week` /
`month` in the respective tables. -/
structure RollupRow where
  bucket : ℤ
  dev_eui : String
  voltage : ℚ
  current : ℚ
  energy_out : ℚ
  energy_in : ℚ
  power : ℚ
  frequency : ℚ
  on_time : ℚ
deriving DecidableEq

/-- The database state the pipeline reads and writes: the device
registry (euis from `StreetlampRepository.find_all`), the raw readings
table, the alarms table, the watermark table and the four rollup
tables. -/
structure PipelineSt where
  streetlamps : List String
  streetlamp_states : List StoredState
  streetlamp_alarms : List StreetlampAlarm
  stream_states : List (String × StreamSt)
  hourly_states : List RollupRow
  daily_states : List RollupRow
  weekly_states : List RollupRow
  monthly_states : List RollupRow
deriving DecidableEq

/-- `StreetlampStateRepository.find_latest_by_dev_eui`: a row of the
device carrying the maximal time (the first such row in table order,
matching the unordered `scalar()` pick). -/
def find_latest_by_dev_eui (rows : List StoredState) (dev : String) :
    Option StoredState :=
  (rows.filter (fun r => r.dev_eui == dev)).foldl
    (fun acc r =>
      match acc with
      | none => some r
      | some m => if m.time < r.time then some r else acc) none

/-- `StreetlampStateRepository.find_oldest_by_dev_eui`. -/
def find_oldest_by_dev_eui (rows : List StoredState) (dev : String) :
    Option StoredState :=
  (rows.filter (fun r => r.dev_eui == dev)).foldl
    (fun acc r =>
      match acc with
      | none => some r
      | some m => if r.time < m.time then some r else acc) none

/-- `find_oldest_by_dev_eui` of a rollup repository (minimal bucket). -/
def find_oldest_rollup (rows : List RollupRow) (dev : String) :
    Option RollupRow :=
  (rows.filter (fun r => r.dev_eui == dev)).foldl
    (fun acc r =>
      match acc with
      | none => some r
      | some m => if r.bucket < m.bucket then some r else acc) none

/-- Junk-totalled minimum of a list of integers. -/
def iMin (l : List ℤ) : ℤ :=
  match l with
  | [] => 0
  | x :: xs => xs.foldl min x

/-- Junk-totalled maximum of a list of integers. -/
def iMax (l : List ℤ) : ℤ :=
  match l with
  | [] => 0
  | x :: xs => xs.foldl max x

/-- Junk-totalled minimum of a list of rationals. -/
def qMin (l : List ℚ) : ℚ :=
  match l with
  | [] => 0
  | x :: xs => xs.foldl min x

/-- Junk-totalled maximum of a list of rationals. -/
def qMax (l : List ℚ) : ℚ :=
  match l with
  | [] => 0
  | x :: xs => xs.foldl max x

/-- SQL `avg` of a list of rationals (never applied to an empty
group). -/
def qAvg (l : List ℚ) : ℚ := l.sum / (l.length : ℚ)

/-- The `on_conflict_do_update` upsert keyed by (bucket, dev_eui),
overwriting all non-key columns. -/
def upsertRollup (table : List RollupRow) (nr : RollupRow) :
    List RollupRow :=
  if table.any (fun r => r.bucket == nr.bucket && r.dev_eui == nr.dev_eui)
  then
    table.map (fun r =>
      if r.bucket == nr.bucket && r.dev_eui == nr.dev_eui then nr else r)
  else table ++ [nr]

/-- `HourlyStreetlampStateRepository.pull` (`repositories.py` lines
714-786): group the device's raw readings with `time` in `[t0, t1]`
(both ends inclusive) by hour; per group take the averages of
voltage/current/power/frequency, `(max(energy) - min(energy)) / 100`
for the two energy deltas, and `avg(status as 0/1) * (max(time) -
min(time) in seconds)` for the on-time; upsert each group keyed by
(hour, dev_eui).  Returns the updated table and the statement row
count (one per group). -/
def hourly_pull_rows (states : List StoredState) (dev : String)
    (t0 t1 : ℤ) : List RollupRow :=
  let rows := states.filter (fun r =>
    r.dev_eui == dev && decide (t0 ≤ r.time) && decide (r.time ≤ t1))
  let hours := (rows.map (fun r => iRoundHour r.time)).dedup
  hours.map (fun h =>
    let g := rows.filter (fun r => iRoundHour r.time == h)
    { bucket := iRoundHour (iMin (g.map StoredState.time))
      dev_eui := dev
      voltage := qAvg (g.map StoredState.dev_voltage)
      current := qAvg (g.map StoredState.dev_current)
      energy_out :=
        (qMax (g.map StoredState.dev_energy_out) -
          qMin (g.map StoredState.dev_energy_out)) / 100
      energy_in :=
        (qMax (g.map StoredState.dev_energy_in) -
          qMin (g.map StoredState.dev_energy_in)) / 100
      power := qAvg (g.map StoredState.dev_power)
      frequency := qAvg (g.map StoredState.dev_frequency)
      on_time :=
        qAvg (g.map (fun r => if r.dev_status_on then (1 : ℚ) else 0)) *
          ((iMax (g.map StoredState.time) - iMin (g.map StoredState.time) :
            ℤ) : ℚ) })

/-- The rollup-to-rollup `pull` shared by the daily, weekly and
monthly repositories (`repositories.py` lines 864-915, 1018-1069,
1160-1210): group source rows with bucket in `[t0, t1]` by the target
truncation; per group take the averages of the four electrical
columns, the sums of the two energies and of the on-time; upsert keyed
by (bucket, dev_eui). -/
def rollup_pull_rows (src : List RollupRow) (trunc : ℤ → ℤ) (dev : String)
    (t0 t1 : ℤ) : List RollupRow :=
  let rows := src.filter (fun r =>
    r.dev_eui == dev && decide (t0 ≤ r.bucket) && decide (r.bucket ≤ t1))
  let buckets := (rows.map (fun r => trunc r.bucket)).dedup
  buckets.map (fun b =>
    let g := rows.filter (fun r => trunc r.bucket == b)
    { bucket := trunc (iMin (g.map RollupRow.bucket))
      dev_eui := dev
      voltage := qAvg (g.map RollupRow.voltage)
      current := qAvg (g.map RollupRow.current)
      energy_out := (g.map RollupRow.energy_out).sum
      energy_in := (g.map RollupRow.energy_in).sum
      power := qAvg (g.map RollupRow.power)
      frequency := qAvg (g.map RollupRow.frequency)
      on_time := (g.map RollupRow.on_time).sum })

/-! ## Raw ingestion: `StreetlampStateService.create` -/

/-- The finite value of an accepted float (the four checked fields of
an accepted reading are finite; an unchecked NaN energy is junk-read
as 0, a case no claim touches). -/
def PyFloat.toQ : PyFloat → ℚ
  | .nan => 0
  | .fin q => q

/-- `StreetlampStateService.create` (`services.py` lines 1371-1466) on
the persisted state: decode and timezone conversion already applied in
the candidate; run the validation rules against the device's latest
persisted reading; on reject insert the alarm and return `None`; on
accept insert the reading and advance the hourly producer watermark to
the reading's hour; return the new row id. -/
def create_step (s : PipelineSt) (ssc : StateCandidate) :
    PipelineSt × Option ℕ :=
  match validate_state ssc
      (find_latest_by_dev_eui s.streetlamp_states ssc.dev_eui) with
  | .reject atype severity =>
      ({ s with streetlamp_alarms :=
          s.streetlamp_alarms ++ [make_alarm ssc atype severity] }, none)
  | .accept =>
      let row : StoredState :=
        { dev_eui := ssc.dev_eui
          time := ssc.time
          dev_voltage := ssc.dev_voltage.toQ
          dev_current := ssc.dev_current.toQ
          dev_power := ssc.dev_power.toQ
          dev_frequency := ssc.dev_frequency.toQ
          dev_energy_in := ssc.dev_energy_in.toQ
          dev_energy_out := ssc.dev_energy_out.toQ
          dev_status_on := ssc.dev_status_on }
      let ssid := s.streetlamp_states.length + 1
      ({ s with
          streetlamp_states := s.streetlamp_states ++ [row]
          stream_states := update_producer s.stream_states
            (hourly_stream_name ssc.dev_eui) (iRoundHour ssc.time) },
        some ssid)

/-! ## The four rollup aggregation services (`services.py` lines
1477-1804) -/

/-- `StreetlampHourlyAggregationService._get_hourly_range`: `none`
when the stream or its producer timestamp is missing, when seeding
finds no raw row, or when `t0 == t1`; the conversion of both bounds to
the default timezone preserves the stored instant. -/
def get_hourly_range (s : PipelineSt) (strname dev : String) :
    Option (ℤ × ℤ) :=
  match find_by_name s.stream_states strname with
  | none => none
  | some st =>
      match st.producer_ts with
      | none => none
      | some t1 =>
          let t0? : Option ℤ :=
            match st.consumer_ts with
            | some c => some c
            | none =>
                (find_oldest_by_dev_eui s.streetlamp_states dev).map
                  (fun oss => iRoundHour oss.time)
          match t0? with
          | none => none
          | some t0 => if t0 = t1 then none else some (t0, t1)

/-- `_get_daily_range`: like the hourly range but seeded from the
oldest hourly rollup row (`t0 = ohse.hour`, no rounding). -/
def get_daily_range (s : PipelineSt) (strname dev : String) :
    Option (ℤ × ℤ) :=
  match find_by_name s.stream_states strname with
  | none => none
  | some st =>
      match st.producer_ts with
      | none => none
      | some t1 =>
          let t0? : Option ℤ :=
            match st.consumer_ts with
            | some c => some c
            | none =>
                (find_oldest_rollup s.hourly_states dev).map RollupRow.bucket
          match t0? with
          | none => none
          | some t0 => if t0 = t1 then none else some (t0, t1)

/-- `_get_weekly_range`: seeded from the oldest daily rollup row. -/
def get_weekly_range (s : PipelineSt) (strname dev : String) :
    Option (ℤ × ℤ) :=
  match find_by_name s.stream_states strname with
  | none => none
  | some st =>
      match st.producer_ts with
      | none => none
      | some t1 =>
          let t0? : Option ℤ :=
            match st.consumer_ts with
            | some c => some c
            | none =>
                (find_oldest_rollup s.daily_states dev).map RollupRow.bucket
          match t0? with
          | none => none
          | some t0 => if t0 = t1 then none else some (t0, t1)

/-- `_get_monthly_range`: seeded from the oldest daily rollup row. -/
def get_monthly_range (s : PipelineSt) (strname dev : String) :
    Option (ℤ × ℤ) :=
  match find_by_name s.stream_states strname with
  | none => none
  | some st =>
      match st.producer_ts with
      | none => none
      | some t1 =>
          let t0? : Option ℤ :=
            match st.consumer_ts with
            | some c => some c
            | none =>
                (find_oldest_rollup s.daily_states dev).map RollupRow.bucket
          match t0? with
          | none => none
          | some t0 => if t0 = t1 then none else some (t0, t1)

/-- One device of `StreetlampHourlyAggregationService.aggregate`: on a
pending range, pull raw readings into the hourly table, advance the
hourly consumer watermark to `t1` and the daily producer watermark to
`round_to_day(t1)`.  Returns the row count contributed. -/
def hourly_agg_step (s : PipelineSt) (dev : String) : PipelineSt × ℕ :=
  match get_hourly_range s (hourly_stream_name dev) dev with
  | none => (s, 0)
  | some (t0, t1) =>
      let newRows := hourly_pull_rows s.streetlamp_states dev t0 t1
      let streams1 := update_consumer s.stream_states
        (hourly_stream_name dev) (some t1)
      let streams2 := update_producer streams1 (daily_stream_name dev)
        (iRoundDay t1)
      ({ s with
          hourly_states := newRows.foldl upsertRollup s.hourly_states
          stream_states := streams2 }, newRows.length)

/-- The loop of `StreetlampHourlyAggregationService.aggregate` over a
device list, accumulating the total row count. -/
def hourly_aggregate_devs (s : PipelineSt) : List String → PipelineSt × ℕ
  | [] => (s, 0)
  | d :: ds =>
      let r := hourly_agg_step s d
      let rest := hourly_aggregate_devs r.1 ds
      (rest.1, r.2 + rest.2)

/-- `StreetlampHourlyAggregationService.aggregate`: iterate over every
registered device. -/
def hourly_aggregate (s : PipelineSt) : PipelineSt × ℕ :=
  hourly_aggregate_devs s s.streetlamps

/-- One device of `StreetlampDailyAggregationService.aggregate`: pull
hourly rows into the daily table, advance the daily consumer to `t1`,
the weekly producer to `round_to_week(t1)` and the monthly producer to
`round_to_month(t1)`. -/
def daily_agg_step (s : PipelineSt) (dev : String) : PipelineSt × ℕ :=
  match get_daily_range s (daily_stream_name dev) dev with
  | none => (s, 0)
  | some (t0, t1) =>
      let newRows := rollup_pull_rows s.hourly_states iRoundDay dev t0 t1
      let streams1 := update_consumer s.stream_states
        (daily_stream_name dev) (some t1)
      let streams2 := update_producer streams1 (weekly_stream_name dev)
        (iRoundWeek t1)
      let streams3 := update_producer streams2 (monthly_stream_name dev)
        (iRoundMonth t1)
      ({ s with
          daily_states := newRows.foldl upsertRollup s.daily_states
          stream_states := streams3 }, newRows.length)

/-- The loop of `StreetlampDailyAggregationService.aggregate`. -/
def daily_aggregate_devs (s : PipelineSt) : List String → PipelineSt × ℕ
  | [] => (s, 0)
  | d :: ds =>
      let r := daily_agg_step s d
      let rest := daily_aggregate_devs r.1 ds
      (rest.1, r.2 + rest.2)

/-- `StreetlampDailyAggregationService.aggregate`. -/
def daily_aggregate (s : PipelineSt) : PipelineSt × ℕ :=
  daily_aggregate_devs s s.streetlamps

/-- One device of `StreetlampWeeklyAggregationService.aggregate`: pull
daily rows into the weekly table and advance the weekly consumer to
`t1`; no further producer watermark is written. -/
def weekly_agg_step (s : PipelineSt) (dev : String) : PipelineSt × ℕ :=
  match get_weekly_range s (weekly_stream_name dev) dev with
  | none => (s, 0)
  | some (t0, t1) =>
      let newRows := rollup_pull_rows s.daily_states iRoundWeek dev t0 t1
      ({ s with
          weekly_states := newRows.foldl upsertRollup s.weekly_states
          stream_states := update_consumer s.stream_states
            (weekly_stream_name dev) (some t1) }, newRows.length)

/-- The loop of `StreetlampWeeklyAggregationService.aggregate`. -/
def weekly_aggregate_devs (s : PipelineSt) : List String → PipelineSt × ℕ
  | [] => (s, 0)
  | d :: ds =>
      let r := weekly_agg_step s d
      let rest := weekly_aggregate_devs r.1 ds
      (rest.1, r.2 + rest.2)

/-- `StreetlampWeeklyAggregationService.aggregate`. -/
def weekly_aggregate (s : PipelineSt) : PipelineSt × ℕ :=
  weekly_aggregate_devs s s.streetlamps

/-- One device of `StreetlampMonthlyAggregationService.aggregate`. -/
def monthly_agg_step (s : PipelineSt) (dev : String) : PipelineSt × ℕ :=
  match get_monthly_range s (monthly_stream_name dev) dev with
  | none => (s, 0)
  | some (t0, t1) =>
      let newRows := rollup_pull_rows s.daily_states iRoundMonth dev t0 t1
      ({ s with
          monthly_states := newRows.foldl upsertRollup s.monthly_states
          stream_states := update_consumer s.stream_states
            (monthly_stream_name dev) (some t1) }, newRows.length)

/-- The loop of `StreetlampMonthlyAggregationService.aggregate`. -/
def monthly_aggregate_devs (s : PipelineSt) : List String → PipelineSt × ℕ
  | [] => (s, 0)
  | d :: ds =>
      let r := monthly_agg_step s d
      let rest := monthly_aggregate_devs r.1 ds
      (rest.1, r.2 + rest.2)

/-- `StreetlampMonthlyAggregationService.aggregate`. -/
def monthly_aggregate (s : PipelineSt) : PipelineSt × ℕ :=
  monthly_aggregate_devs s s.streetlamps

/-! ## Failure semantics of the aggregation pass (`main.run_agg_process`)

The awaited repository `pull` calls can raise
(`TransientStoreFailure`); an environment oracle decides which calls
do.  `aggregate()` contains no `try` block, so the exception
propagates out of the device loop; the translation into `Except`
mirrors that directly.  `run_agg_process` wraps all four stages in one
`try` and one transaction: on an exception the transaction rolls back
and the error is logged. -/

/-- Which `pull` calls raise: by stage label and device. -/
structure AggEnv where
  pullFails : String → String → Bool

/-- The environment where no call raises. -/
def okEnv : AggEnv := { pullFails := fun _ _ => false }

/-- An aggregation failure: the stage and device whose `pull`
raised. -/
inductive AggErr where
  | pullFailure (stage : String) (dev : String)
deriving DecidableEq

deriving instance DecidableEq for Except

/-- One device of the hourly `aggregate` with the fallible `pull`
call; when the call does not raise, the step is the pure step. -/
def hourly_agg_stepE (env : AggEnv) (s : PipelineSt) (dev : String) :
    Except AggErr (PipelineSt × ℕ) :=
  match get_hourly_range s (hourly_stream_name dev) dev with
  | none => .ok (s, 0)
  | some _ =>
      if env.pullFails "hourly" dev then
        .error (.pullFailure "hourly" dev)
      else .ok (hourly_agg_step s dev)

/-- The hourly device loop with fallible `pull`: no `try` inside
`aggregate`, so the first failure aborts the loop. -/
def hourly_aggregate_devsE (env : AggEnv) (s : PipelineSt) :
    List String → Except AggErr (PipelineSt × ℕ)
  | [] => .ok (s, 0)
  | d :: ds =>
      match hourly_agg_stepE env s d with
      | .error e => .error e
      | .ok r =>
          match hourly_aggregate_devsE env r.1 ds with
          | .error e => .error e
          | .ok rest => .ok (rest.1, r.2 + rest.2)

/-- Fallible `StreetlampHourlyAggregationService.aggregate`. -/
def hourly_aggregateE (env : AggEnv) (s : PipelineSt) :
    Except AggErr (PipelineSt × ℕ) :=
  hourly_aggregate_devsE env s s.streetlamps

/-- One device of the daily `aggregate` with the fallible `pull`. -/
def daily_agg_stepE (env : AggEnv) (s : PipelineSt) (dev : String) :
    Except AggErr (PipelineSt × ℕ) :=
  match get_daily_range s (daily_stream_name dev) dev with
  | none => .ok (s, 0)
  | some _ =>
      if env.pullFails "daily" dev then
        .error (.pullFailure "daily" dev)
      else .ok (daily_agg_step s dev)

/-- The daily device loop with fallible `pull`. -/
def daily_aggregate_devsE (env : AggEnv) (s : PipelineSt) :
    List String → Except AggErr (PipelineSt × ℕ)
  | [] => .ok (s, 0)
  | d :: ds =>
      match daily_agg_stepE env s d with
      | .error e => .error e
      | .ok r =>
          match daily_aggregate_devsE env r.1 ds with
          | .error e => .error e
          | .ok rest => .ok (rest.1, r.2 + rest.2)

/-- Fallible `StreetlampDailyAggregationService.aggregate`. -/
def daily_aggregateE (env : AggEnv) (s : PipelineSt) :
    Except AggErr (PipelineSt × ℕ) :=
  daily_aggregate_devsE env s s.streetlamps

/-- One device of the weekly `aggregate` with the fallible `pull`. -/
def weekly_agg_stepE (env : AggEnv) (s : PipelineSt) (dev : String) :
    Except AggErr (PipelineSt × ℕ) :=
  match get_weekly_range s (weekly_stream_name dev) dev with
  | none => .ok (s, 0)
  | some _ =>
      if env.pullFails "weekly" dev then
        .error (.pullFailure "weekly" dev)
      else .ok (weekly_agg_step s dev)

/-- The weekly device loop with fallible `pull`. -/
def weekly_aggregate_devsE (env : AggEnv) (s : PipelineSt) :
    List String → Except AggErr (PipelineSt × ℕ)
  | [] => .ok (s, 0)
  | d :: ds =>
      match weekly_agg_stepE env s d with
      | .error e => .error e
      | .ok r =>
          match weekly_aggregate_devsE env r.1 ds with
          | .error e => .error e
          | .ok rest => .ok (rest.1, r.2 + rest.2)

/-- Fallible `StreetlampWeeklyAggregationService.aggregate`. -/
def weekly_aggregateE (env : AggEnv) (s : PipelineSt) :
    Except AggErr (PipelineSt × ℕ) :=
  weekly_aggregate_devsE env s s.streetlamps

/-- One device of the monthly `aggregate` with the fallible `pull`. -/
def monthly_agg_stepE (env : AggEnv) (s : PipelineSt) (dev : String) :
    Except AggErr (PipelineSt × ℕ) :=
  match get_monthly_range s (monthly_stream_name dev) dev with
  | none => .ok (s, 0)
  | some _ =>
      if env.pullFails "monthly" dev then
        .error (.pullFailure "monthly" dev)
      else .ok (monthly_agg_step s dev)

/-- The monthly device loop with fallible `pull`. -/
def monthly_aggregate_devsE (env : AggEnv) (s : PipelineSt) :
    List String → Except AggErr (PipelineSt × ℕ)
  | [] => .ok (s, 0)
  | d :: ds =>
      match monthly_agg_stepE env s d with
      | .error e => .error e
      | .ok r =>
          match monthly_aggregate_devsE env r.1 ds with
          | .error e => .error e
          | .ok rest => .ok (rest.1, r.2 + rest.2)

/-- Fallible `StreetlampMonthlyAggregationService.aggregate`. -/
def monthly_aggregateE (env : AggEnv) (s : PipelineSt) :
    Except AggErr (PipelineSt × ℕ) :=
  monthly_aggregate_devsE env s s.streetlamps

/-- `main.run_agg_process`: the four stages in order inside one
transaction and one `try`; an exception anywhere rolls the whole
transaction back and is logged (returned as the second component). -/
def run_agg_process (env : AggEnv) (s : PipelineSt) :
    PipelineSt × Option AggErr :=
  match
    (do
      let r1 ← hourly_aggregateE env s
      let r2 ← daily_aggregateE env r1.1
      let r3 ← weekly_aggregateE env r2.1
      let r4 ← monthly_aggregateE env r3.1
      pure r4.1 : Except AggErr PipelineSt)
  with
  | .ok s4 => (s4, none)
  | .error e => (s, some e)

/-! ## The raw ingestion consumer (`main.py` lines 89-146)

The queue is the redis stream `nl:streetlamp_states`; entries carry
monotonically increasing ids (modelled as naturals; the initial cursor
`'0-0'` is 0).  Per message the oracle fields fix what the awaited
calls would do: whether the payload has data, what `serv.create`
returns, and whether the `create` or the `xdel` call raises a
`redis.RedisError` (the only exception class the inner `try`
catches). -/

/-- A queued message with its processing oracle. -/
structure QueueMsg where
  id : ℕ
  hasData : Bool
  createResult : Option ℕ
  createRaises : Bool
  xdelRaises : Bool
deriving DecidableEq

/-- `xread(streams=..., count=batch_size)`: up to `count` pending
entries with id strictly greater than the cursor. -/
def xread (q : List QueueMsg) (after : ℕ) (count : ℕ) : List QueueMsg :=
  (q.filter (fun m => decide (after < m.id))).take count

/-- `xdel`: remove the entry with the given id. -/
def xdel (q : List QueueMsg) (i : ℕ) : List QueueMsg :=
  q.filter (fun m => m.id != i)

/-- The inner message loop of `proc_streetlamp_state_batch`: per item,
`try` create (when the payload has data) then `xdel`; a
`redis.RedisError` is caught and logged, leaving the message in place;
`finally` advances the local `last_id_seen` to the item's id.  Carries
(queue, local cursor, created count `n`). -/
def proc_items (queue : List QueueMsg) (cursor : ℕ) (n : ℕ) :
    List QueueMsg → List QueueMsg × ℕ × ℕ
  | [] => (queue, cursor, n)
  | m :: rest =>
      let step : List QueueMsg × ℕ :=
        if m.hasData then
          if m.createRaises then (queue, n)
          else
            let n1 := if m.createResult.isSome then n + 1 else n
            if m.xdelRaises then (queue, n1) else (xdel queue m.id, n1)
        else if m.xdelRaises then (queue, n) else (xdel queue m.id, n)
      proc_items step.1 m.id step.2 rest

/-- `main.proc_streetlamp_state_batch`: read a batch after the given
cursor, process its items, and return `None` (the Python function is
annotated `-> None` and has no `return`); the final queue, the local
cursor and the created count die with the call except for their side
effects on the queue.  The last component is the function's return
value. -/
def proc_streetlamp_state_batch (last_id_seen : ℕ) (batch_size : ℕ)
    (queue : List QueueMsg) : (List QueueMsg × ℕ × ℕ) × Option ℕ :=
  let entries := xread queue last_id_seen batch_size
  (proc_items queue last_id_seen 0 entries, none)

/-- One iteration of the `while True` loop of
`main.proc_streetlamp_states`: call the batch processor with the
current `last_id_seen`; the call returns `None` and the loop never
reassigns `last_id_seen`, so the next iteration reuses the same
cursor.  Returns (next cursor, queue after the batch). -/
def proc_streetlamp_states_iter (last_id_seen : ℕ)
    (queue : List QueueMsg) : ℕ × List QueueMsg :=
  let r := proc_streetlamp_state_batch last_id_seen 1000 queue
  (last_id_seen, r.1.1)

/-! ## Watermark operation traces (claim C5) -/

/-- A watermark-store write issued by a pipeline stage. -/
inductive StoreOp where
  | updProd (nm : String) (ts : ℤ)
  | updCons (nm : String) (ts : ℤ)
deriving DecidableEq

/-- Apply one store write. -/
def applyStoreOp (l : List (String × StreamSt)) : StoreOp →
    List (String × StreamSt)
  | .updProd nm ts => update_producer l nm ts
  | .updCons nm ts => update_consumer l nm (some ts)

/-- The spec invariant on the watermark table: every non-null
`consumer_ts` has a `producer_ts` at or above it. -/
def WatermarkInv (l : List (String × StreamSt)) : Bool :=
  l.all (fun e =>
    match e.2.consumer_ts, e.2.producer_ts with
    | some c, some p => decide (c ≤ p)
    | some _, none => false
    | none, _ => true)

/-- The discipline the aggregation stages follow: a consumer update
writes the stream's current producer timestamp back (the same `t1` it
just read), and a producer update never falls below the stream's
existing consumer. -/
def opGuard (l : List (String × StreamSt)) : StoreOp → Prop
  | .updProd nm ts =>
      ∀ e ∈ l, e.1 = nm → ∀ c, e.2.consumer_ts = some c → c ≤ ts
  | .updCons nm ts =>
      ∀ e ∈ l, e.1 = nm → e.2.producer_ts = some ts

/-- A trace of store writes each of which respects `opGuard` in the
state where it executes. -/
inductive SafeTrace : List (String × StreamSt) → List StoreOp → Prop
  | nil (l : List (String × StreamSt)) : SafeTrace l []
  | cons {l : List (String × StreamSt)} {op : StoreOp} {ops : List StoreOp}
      (hg : opGuard l op) (hrest : SafeTrace (applyStoreOp l op) ops) :
      SafeTrace l (op :: ops)

/-! ## Concrete late-reading scenario (claim C5)

Device `d` sends readings at 10:00 and 11:00, the hourly aggregation
pass runs, then a late reading timestamped 08:30 arrives. -/

/-- The empty initial database with one registered device `d`. -/
def c5_initial : PipelineSt :=
  { streetlamps := ["d"], streetlamp_states := [], streetlamp_alarms := [],
    stream_states := [], hourly_states := [], daily_states := [],
    weekly_states := [], monthly_states := [] }

/-- A plausible reading of device `d` at the given time. -/
def c5_reading (dd : String) (t : ℤ) : StateCandidate :=
  { deduplication_id := dd, dev_eui := "d", time := t,
    dev_voltage := .fin 120, dev_current := .fin 1, dev_power := .fin 50,
    dev_frequency := .fin 60, dev_energy_in := .fin 0,
    dev_energy_out := .fin 0, dev_status_on := true }

/-- The database after ingesting the 10:00 reading. -/
def c5_after_first : PipelineSt :=
  (create_step c5_initial (c5_reading "a" 36000)).1

/-- The database after also ingesting the 11:00 reading. -/
def c5_after_second : PipelineSt :=
  (create_step c5_after_first (c5_reading "b" 39600)).1

/-- The database after the hourly aggregation pass. -/
def c5_after_agg : PipelineSt := (hourly_aggregate c5_after_second).1

/-- The database after the late 08:30 reading. -/
def c5_final : PipelineSt :=
  (create_step c5_after_agg (c5_reading "c" 30600)).1

/-! ## Concrete two-device aggregation scenario (claim C2)

Two devices with pending hourly ranges; the repository `pull` call
raises for the first. -/

/-- Two registered devices, both with a pending hourly range
(consumer behind producer). -/
def c2_state : PipelineSt :=
  { streetlamps := ["d1", "d2"]
    streetlamp_states := []
    streetlamp_alarms := []
    stream_states :=
      [(hourly_stream_name "d1",
        { producer_ts := some 39600, consumer_ts := some 36000 }),
       (hourly_stream_name "d2",
        { producer_ts := some 39600, consumer_ts := some 36000 })]
    hourly_states := []
    daily_states := []
    weekly_states := []
    monthly_states := [] }

/-- The environment in which the hourly `pull` for device `d1`
raises. -/
def c2_env : AggEnv :=
  { pullFails := fun stage dev => stage == "hourly" && dev == "d1" }

/-! ## Exact-name lookup and well-formed watermark tables

`find_by_name` compares names case-insensitively while the writers
match exactly; on tables whose stored names are lower-case-fixed and
duplicate-free (as every name the pipeline writes is) the lookup
reduces to exact search. -/

/-- Exact-name search in the watermark table. -/
def find_exact (l : List (String × StreamSt)) (nm : String) :
    Option (String × StreamSt) :=
  l.find? (fun p => p.1 == nm)

/-- A well-formed watermark table: stored names are fixed by
lower-casing and pairwise distinct. -/
def GoodStreams (l : List (String × StreamSt)) : Prop :=
  (∀ e ∈ l, e.1.toLower = e.1) ∧ (l.map Prod.fst).Nodup

/-- A one-device database with a pending hourly watermark range, used
to instantiate the second-pass idempotence theorem. -/
def c7_state : PipelineSt :=
  { streetlamps := ["d1"]
    streetlamp_states := []
    streetlamp_alarms := []
    stream_states := [(hourly_stream_name "d1",
      { producer_ts := some 7200, consumer_ts := some 3600 })]
    hourly_states := []
    daily_states := []
    weekly_states := []
    monthly_states := [] }

/-- A one-device database with pending hourly and daily watermark
ranges, used to instantiate the producer-advancement theorem. -/
def c8_state : PipelineSt :=
  { streetlamps := ["d1"]
    streetlamp_states := []
    streetlamp_alarms := []
    stream_states := [(hourly_stream_name "d1",
      { producer_ts := some 7200, consumer_ts := some 3600 }),
      (daily_stream_name "d1",
      { producer_ts := some 86400, consumer_ts := some 0 })]
    hourly_states := []
    daily_states := []
    weekly_states := []
    monthly_states := [] }

/-! # Theorems

Shared lemmas first, then one theorem per claim (with its witness or
counterexample where required). -/

set_option maxRecDepth 2000


/-! ## Base64 round-trip -/

theorem b64val_b64chr : ∀ n < 64, b64val (b64chr n) = some n := by decide

theorem b64chr_ne_pad (n : Nat) : b64chr n ≠ b64pad := by
  unfold b64chr b64pad
  split_ifs <;> omega

theorem b64_roundtrip :
    ∀ bs : List Nat, (∀ b ∈ bs, b < 256) →
      b64decode (b64encode bs) = some bs := by
  intro bs
  induction bs using b64encode.induct with
  | case1 =>
      intro _
      simp [b64encode, b64decode]
  | case2 a =>
      intro h
      have ha : a < 256 := h a (by simp)
      have h0 : b64val (b64chr (a / 4)) = some (a / 4) :=
        b64val_b64chr _ (by omega)
      have h1 : b64val (b64chr (a % 4 * 16)) = some (a % 4 * 16) :=
        b64val_b64chr _ (by omega)
      simp [b64encode, b64decode, h0, h1]
      omega
  | case3 a b =>
      intro h
      have ha : a < 256 := h a (by simp)
      have hb : b < 256 := h b (by simp)
      have h0 : b64val (b64chr (a / 4)) = some (a / 4) :=
        b64val_b64chr _ (by omega)
      have h1 : b64val (b64chr (a % 4 * 16 + b / 16)) =
          some (a % 4 * 16 + b / 16) := b64val_b64chr _ (by omega)
      have h2 : b64val (b64chr (b % 16 * 4)) = some (b % 16 * 4) :=
        b64val_b64chr _ (by omega)
      simp [b64encode, b64decode, h0, h1, h2, b64chr_ne_pad]
      omega
  | case4 a b c rest ih =>
      intro h
      have ha : a < 256 := h a (by simp)
      have hb : b < 256 := h b (by simp)
      have hc : c < 256 := h c (by simp)
      have h0 : b64val (b64chr (a / 4)) = some (a / 4) :=
        b64val_b64chr _ (by omega)
      have h1 : b64val (b64chr (a % 4 * 16 + b / 16)) =
          some (a % 4 * 16 + b / 16) := b64val_b64chr _ (by omega)
      have h2 : b64val (b64chr (b % 16 * 4 + c / 64)) =
          some (b % 16 * 4 + c / 64) := b64val_b64chr _ (by omega)
      have h3 : b64val (b64chr (c % 64)) = some (c % 64) :=
        b64val_b64chr _ (by omega)
      have hrest : b64decode (b64encode rest) = some rest :=
        ih (fun x hx => h x (by simp [hx]))
      simp [b64encode, b64decode, h0, h1, h2, h3, hrest, b64chr_ne_pad]
      refine ⟨by omega, by omega, by omega⟩

/-! ## Codec slices -/

theorem sliceField_head (tag : Nat) (v rest : List Nat)
    (hv : v.length = 8) : sliceField (tag :: (v ++ rest)) 0 = v := by
  show ((tag :: (v ++ rest)).drop 1).take (9 * 1 - 1) = v
  simp only [List.drop_succ_cons, List.drop_zero]
  rw [show 9 * 1 - 1 = 8 from rfl, ← hv, List.take_left]

theorem drop9_cons (tag : Nat) (v rest : List Nat) (hv : v.length = 8) :
    (tag :: (v ++ rest)).drop 9 = rest := by
  have : (tag :: (v ++ rest)).drop 9 = (v ++ rest).drop 8 := by
    simp [List.drop_succ_cons]
  rw [this, ← hv, List.drop_left]

theorem sliceField_succ (raw : List Nat) (i : Nat) :
    sliceField raw (i + 1) = sliceField (raw.drop 9) i := by
  unfold sliceField
  rw [List.drop_drop]
  congr 1
  · omega
  · congr 1
    omega

/-- Claim C6: decoding the result of encoding a state struct (six
8-byte doubles and one boolean) reproduces the struct exactly: the six
double fields bit-for-bit (byte-for-byte) and the status preserved. -/
theorem decode_encode_state_data (sds : StreetlampDeviceState)
    (hv : sds.voltage.length = 8) (hc : sds.current.length = 8)
    (heo : sds.energy_out.length = 8) (hei : sds.energy_in.length = 8)
    (hp : sds.power.length = 8) (hf : sds.frequency.length = 8)
    (hbv : ∀ b ∈ sds.voltage, b < 256) (hbc : ∀ b ∈ sds.current, b < 256)
    (hbeo : ∀ b ∈ sds.energy_out, b < 256)
    (hbei : ∀ b ∈ sds.energy_in, b < 256)
    (hbp : ∀ b ∈ sds.power, b < 256)
    (hbf : ∀ b ∈ sds.frequency, b < 256) :
    decode_state_data (encode_state_data sds) = some sds := by
  have hbytes : ∀ b ∈ encode_state_raw sds, b < 256 := by
    intro b hb
    simp only [encode_state_raw, List.mem_cons, List.mem_append] at hb
    rcases hb with h | h
    · omega
    rcases h with h | h
    · exact hbv b h
    rcases h with h | h
    · omega
    rcases h with h | h
    · exact hbc b h
    rcases h with h | h
    · omega
    rcases h with h | h
    · exact hbeo b h
    rcases h with h | h
    · omega
    rcases h with h | h
    · exact hbei b h
    rcases h with h | h
    · omega
    rcases h with h | h
    · exact hbp b h
    rcases h with h | h
    · omega
    rcases h with h | h
    · exact hbf b h
    rcases h with h | h
    · omega
    rcases h with h | h
    · split at h <;> omega
    simp only [List.mem_cons, List.not_mem_nil, or_false] at h
    rcases h with h | h | h | h | h | h | h | h <;> omega
  have hdec : b64decode (b64encode (encode_state_raw sds)) =
      some (encode_state_raw sds) := b64_roundtrip _ hbytes
  set st : Nat := (if sds.status_on then 1 else 0) with hst
  set pad : List Nat := [255, 255, 255, 255, 255, 255, 255, 255]
    with hpad
  have hraw : encode_state_raw sds = 86 :: (sds.voltage ++ 73 ::
      (sds.current ++ 77 :: (sds.energy_out ++ 69 :: (sds.energy_in ++
        87 :: (sds.power ++ 70 :: (sds.frequency ++ 83 :: st ::
          pad)))))) := rfl
  have e1 : (encode_state_raw sds).drop 9 = 73 :: (sds.current ++ 77 ::
      (sds.energy_out ++ 69 :: (sds.energy_in ++ 87 :: (sds.power ++
        70 :: (sds.frequency ++ 83 :: st :: pad))))) := by
    rw [hraw]; exact drop9_cons _ _ _ hv
  have e2 : ((encode_state_raw sds).drop 9).drop 9 = 77 ::
      (sds.energy_out ++ 69 :: (sds.energy_in ++ 87 :: (sds.power ++
        70 :: (sds.frequency ++ 83 :: st :: pad)))) := by
    rw [e1]; exact drop9_cons _ _ _ hc
  have e3 : (((encode_state_raw sds).drop 9).drop 9).drop 9 = 69 ::
      (sds.energy_in ++ 87 :: (sds.power ++ 70 :: (sds.frequency ++
        83 :: st :: pad))) := by
    rw [e2]; exact drop9_cons _ _ _ heo
  have e4 : ((((encode_state_raw sds).drop 9).drop 9).drop 9).drop 9 =
      87 :: (sds.power ++ 70 :: (sds.frequency ++ 83 :: st :: pad)) := by
    rw [e3]; exact drop9_cons _ _ _ hei
  have e5 : (((((encode_state_raw sds).drop 9).drop 9).drop 9).drop
      9).drop 9 = 70 :: (sds.frequency ++ 83 :: st :: pad) := by
    rw [e4]; exact drop9_cons _ _ _ hp
  have e6 : ((((((encode_state_raw sds).drop 9).drop 9).drop 9).drop
      9).drop 9).drop 9 = 83 :: st :: pad := by
    rw [e5]
    have : (70 : Nat) :: (sds.frequency ++ 83 :: st :: pad) =
        70 :: (sds.frequency ++ (83 :: st :: pad)) := rfl
    rw [this]; exact drop9_cons _ _ _ hf
  have s0 : sliceField (encode_state_raw sds) 0 = sds.voltage := by
    rw [hraw]; exact sliceField_head _ _ _ hv
  have s1 : sliceField (encode_state_raw sds) 1 = sds.current := by
    rw [sliceField_succ, e1]; exact sliceField_head _ _ _ hc
  have s2 : sliceField (encode_state_raw sds) 2 = sds.energy_out := by
    rw [sliceField_succ, sliceField_succ, e2]
    exact sliceField_head _ _ _ heo
  have s3 : sliceField (encode_state_raw sds) 3 = sds.energy_in := by
    rw [sliceField_succ, sliceField_succ, sliceField_succ, e3]
    exact sliceField_head _ _ _ hei
  have s4 : sliceField (encode_state_raw sds) 4 = sds.power := by
    rw [sliceField_succ, sliceField_succ, sliceField_succ,
      sliceField_succ, e4]
    exact sliceField_head _ _ _ hp
  have s5 : sliceField (encode_state_raw sds) 5 = sds.frequency := by
    rw [sliceField_succ, sliceField_succ, sliceField_succ,
      sliceField_succ, sliceField_succ, e5]
    exact sliceField_head _ _ _ hf
  have s6 : sliceField (encode_state_raw sds) 6 =
      st :: [255, 255, 255, 255, 255, 255, 255] := by
    rw [sliceField_succ, sliceField_succ, sliceField_succ,
      sliceField_succ, sliceField_succ, sliceField_succ, e6]
    simp [sliceField, hpad]
  have hbool : ((st :: [255, 255, 255, 255, 255, 255, 255]).headD 0 ≠ 0) =
      (sds.status_on = true) := by
    cases hs : sds.status_on <;> simp [hst, hs]
  unfold decode_state_data encode_state_data
  rw [hdec]
  dsimp only
  rw [if_pos]
  · congr 1
    rw [s0, s1, s2, s3, s4, s5, s6]
    cases sds with
    | mk v c eo ei p f so =>
        rw [hst]
        cases so <;> simp
  · exact ⟨by rw [s0]; exact hv, by rw [s1]; exact hc,
      by rw [s2]; exact heo, by rw [s3]; exact hei,
      by rw [s4]; exact hp, by rw [s5]; exact hf, by rw [s6]; simp⟩

/-- Witness for C6: a concrete state struct round-trips. -/
theorem decode_encode_state_data_witness :
    decode_state_data (encode_state_data
      { voltage := [0, 0, 0, 0, 0, 0, 94, 64]
        current := [154, 153, 153, 153, 153, 153, 241, 63]
        energy_out := [0, 0, 0, 0, 0, 0, 0, 0]
        energy_in := [0, 0, 0, 0, 0, 136, 195, 64]
        power := [0, 0, 0, 0, 0, 0, 73, 64]
        frequency := [0, 0, 0, 0, 0, 0, 78, 64]
        status_on := true }) = some
      { voltage := [0, 0, 0, 0, 0, 0, 94, 64]
        current := [154, 153, 153, 153, 153, 153, 241, 63]
        energy_out := [0, 0, 0, 0, 0, 0, 0, 0]
        energy_in := [0, 0, 0, 0, 0, 136, 195, 64]
        power := [0, 0, 0, 0, 0, 0, 73, 64]
        frequency := [0, 0, 0, 0, 0, 0, 78, 64]
        status_on := true } :=
  decode_encode_state_data _ rfl rfl rfl rfl rfl rfl
    (by decide) (by decide) (by decide) (by decide) (by decide)
    (by decide)

/-! ## Validation rule order (claim C9) -/

/-- Claim C9: the validation rules are evaluated in the fixed order
INVALID_VALUE, OVER_POWER, OVER_FREQUENCY, OVER_ENERGY, the first
matching rule determining the single alarm raised; in particular a
reading with `voltage = NaN` and `power = 200` yields
`INVALID_VALUE`/`MINOR`, not `OVER_POWER`. -/
theorem validation_rule_order :
    (∀ (ss : StateCandidate) (ls : Option StoredState),
      (validate_state ss ls = .reject .INVALID_VALUE .MINOR ↔
        invalid_value_rule ss = true) ∧
      (validate_state ss ls = .reject .OVER_POWER .CRITICAL ↔
        invalid_value_rule ss = false ∧ over_power_rule ss = true) ∧
      (validate_state ss ls = .reject .OVER_FREQUENCY .CRITICAL ↔
        invalid_value_rule ss = false ∧ over_power_rule ss = false ∧
          over_frequency_rule ss = true) ∧
      (validate_state ss ls = .reject .OVER_ENERGY .MAJOR ↔
        invalid_value_rule ss = false ∧ over_power_rule ss = false ∧
          over_frequency_rule ss = false ∧
          ∃ prior, ls = some prior ∧ over_energy_rule ss prior = true) ∧
      (validate_state ss ls = .accept ↔
        invalid_value_rule ss = false ∧ over_power_rule ss = false ∧
          over_frequency_rule ss = false ∧
          (ls = none ∨ ∃ prior, ls = some prior ∧
            over_energy_rule ss prior = false))) ∧
    validate_state
      { deduplication_id := "r", dev_eui := "d", time := 0,
        dev_voltage := .nan, dev_current := .fin 1, dev_power := .fin 200,
        dev_frequency := .fin 60, dev_energy_in := .fin 0,
        dev_energy_out := .fin 0, dev_status_on := true } none =
      .reject .INVALID_VALUE .MINOR := by
  constructor
  · intro ss ls
    unfold validate_state
    cases ls with
    | none => split_ifs with h1 h2 h3 <;> simp_all
    | some prior =>
        cases he : over_energy_rule ss prior <;>
          split_ifs with h1 h2 h3 <;> simp_all
  · decide

/-! ## Energy-rate rule (claim C3) -/

/-- Counterexample to claim C3 as stated: the code's divisor is not
`max(1, floor(Δt in hours))` -- a reading older than its prior gets
the negative floor, not 1.  Concretely: prior at `t = 7200 s` with
`energy_in = 301000`, new reading at `t = 0` with `energy_in = 1000`;
the code computes `t = -2` and rate `(1000 - 301000) / -2 = 150000 >
100000` and raises `OVER_ENERGY`, while with the claim's divisor
`max(1, -2) = 1` the rate `-300000` is not above the limit and the
reading would be accepted. -/
theorem energy_rate_divisor_counterexample :
    validate_state
      { deduplication_id := "r", dev_eui := "d", time := 0,
        dev_voltage := .fin 120, dev_current := .fin 1,
        dev_power := .fin 50, dev_frequency := .fin 60,
        dev_energy_in := .fin 1000, dev_energy_out := .fin 0,
        dev_status_on := true }
      (some
        { dev_eui := "d", time := 7200, dev_voltage := 120,
          dev_current := 1, dev_power := 50, dev_frequency := 60,
          dev_energy_in := 301000, dev_energy_out := 0,
          dev_status_on := true }) = .reject .OVER_ENERGY .MAJOR ∧
    specEnergyDivisor 0 7200 = 1 ∧
    ¬(((1000 : ℚ) - 301000) / ((specEnergyDivisor 0 7200 : ℤ) : ℚ) >
      100000) := by
  have hdiv : specEnergyDivisor 0 7200 = 1 := by
    with_unfolding_all decide
  refine ⟨by with_unfolding_all decide, hdiv, ?_⟩
  rw [hdiv]
  norm_num

/-- Claim C3 (amended): for a reading validated against a prior
reading that passes rules 1-3, the OVER_ENERGY/MAJOR alarm is raised
exactly when `(energy_in - prior.energy_in) / t > 100000` where `t`
is the floor of the time difference in hours with 1 substituted only
when that floor is 0; for a reading not older than its prior this
divisor equals the spec's `max(1, floor(Δt in hours))`.  At the
boundary: prior `energy_in = 1000` at `t`, new reading at `t + 1h`
with `energy_in = 101001` is rejected with OVER_ENERGY and dropped
(alarm persisted, no reading row); with `energy_in = 101000` exactly
it is accepted and inserted. -/
theorem energy_rate_alarm_boundary :
    (∀ (ss : StateCandidate) (prior : StoredState),
      invalid_value_rule ss = false → over_power_rule ss = false →
      over_frequency_rule ss = false →
      (validate_state ss (some prior) = .reject .OVER_ENERGY .MAJOR ↔
        over_energy_rule ss prior = true)) ∧
    (∀ t pt : ℤ, pt ≤ t →
      (if Int.fdiv (t - pt) 3600 = 0 then 1 else Int.fdiv (t - pt) 3600) =
        specEnergyDivisor t pt) ∧
    (create_step
      { streetlamps := ["d"],
        streetlamp_states :=
          [{ dev_eui := "d", time := 0, dev_voltage := 120,
             dev_current := 1, dev_power := 50, dev_frequency := 60,
             dev_energy_in := 1000, dev_energy_out := 0,
             dev_status_on := true }],
        streetlamp_alarms := [], stream_states := [], hourly_states := [],
        daily_states := [], weekly_states := [], monthly_states := [] }
      { deduplication_id := "r", dev_eui := "d", time := 3600,
        dev_voltage := .fin 120, dev_current := .fin 1,
        dev_power := .fin 50, dev_frequency := .fin 60,
        dev_energy_in := .fin 101001, dev_energy_out := .fin 0,
        dev_status_on := true }).2 = none ∧
    (create_step
      { streetlamps := ["d"],
        streetlamp_states :=
          [{ dev_eui := "d", time := 0, dev_voltage := 120,
             dev_current := 1, dev_power := 50, dev_frequency := 60,
             dev_energy_in := 1000, dev_energy_out := 0,
             dev_status_on := true }],
        streetlamp_alarms := [], stream_states := [], hourly_states := [],
        daily_states := [], weekly_states := [], monthly_states := [] }
      { deduplication_id := "r", dev_eui := "d", time := 3600,
        dev_voltage := .fin 120, dev_current := .fin 1,
        dev_power := .fin 50, dev_frequency := .fin 60,
        dev_energy_in := .fin 101001, dev_energy_out := .fin 0,
        dev_status_on := true }).1.streetlamp_states.length = 1 ∧
    (create_step
      { streetlamps := ["d"],
        streetlamp_states :=
          [{ dev_eui := "d", time := 0, dev_voltage := 120,
             dev_current := 1, dev_power := 50, dev_frequency := 60,
             dev_energy_in := 1000, dev_energy_out := 0,
             dev_status_on := true }],
        streetlamp_alarms := [], stream_states := [], hourly_states := [],
        daily_states := [], weekly_states := [], monthly_states := [] }
      { deduplication_id := "r", dev_eui := "d", time := 3600,
        dev_voltage := .fin 120, dev_current := .fin 1,
        dev_power := .fin 50, dev_frequency := .fin 60,
        dev_energy_in := .fin 101001, dev_energy_out := .fin 0,
        dev_status_on := true }).1.streetlamp_alarms.map
      (fun a => (a.atype, a.severity)) = [(.OVER_ENERGY, .MAJOR)] ∧
    (create_step
      { streetlamps := ["d"],
        streetlamp_states :=
          [{ dev_eui := "d", time := 0, dev_voltage := 120,
             dev_current := 1, dev_power := 50, dev_frequency := 60,
             dev_energy_in := 1000, dev_energy_out := 0,
             dev_status_on := true }],
        streetlamp_alarms := [], stream_states := [], hourly_states := [],
        daily_states := [], weekly_states := [], monthly_states := [] }
      { deduplication_id := "r", dev_eui := "d", time := 3600,
        dev_voltage := .fin 120, dev_current := .fin 1,
        dev_power := .fin 50, dev_frequency := .fin 60,
        dev_energy_in := .fin 101000, dev_energy_out := .fin 0,
        dev_status_on := true }).2 = some 2 ∧
    (create_step
      { streetlamps := ["d"],
        streetlamp_states :=
          [{ dev_eui := "d", time := 0, dev_voltage := 120,
             dev_current := 1, dev_power := 50, dev_frequency := 60,
             dev_energy_in := 1000, dev_energy_out := 0,
             dev_status_on := true }],
        streetlamp_alarms := [], stream_states := [], hourly_states := [],
        daily_states := [], weekly_states := [], monthly_states := [] }
      { deduplication_id := "r", dev_eui := "d", time := 3600,
        dev_voltage := .fin 120, dev_current := .fin 1,
        dev_power := .fin 50, dev_frequency := .fin 60,
        dev_energy_in := .fin 101000, dev_energy_out := .fin 0,
        dev_status_on := true }).1.streetlamp_states.length = 2 := by
  refine ⟨?_, ?_, by with_unfolding_all decide,
    by with_unfolding_all decide, by with_unfolding_all decide,
    by with_unfolding_all decide, by with_unfolding_all decide⟩
  · intro ss prior h1 h2 h3
    unfold validate_state
    rw [h1, h2, h3]
    cases he : over_energy_rule ss prior <;> simp [he]
  · intro t pt h
    have hd : Int.fdiv (t - pt) 3600 = (t - pt) / 3600 :=
      Int.fdiv_eq_ediv _ (by omega)
    unfold specEnergyDivisor
    rw [hd]
    omega

/-- Witness for the amended C3: the general equivalence applied to the
boundary reading, with each hypothesis discharged concretely. -/
theorem energy_rate_alarm_boundary_witness :
    validate_state
      { deduplication_id := "r", dev_eui := "d", time := 3600,
        dev_voltage := .fin 120, dev_current := .fin 1,
        dev_power := .fin 50, dev_frequency := .fin 60,
        dev_energy_in := .fin 101001, dev_energy_out := .fin 0,
        dev_status_on := true }
      (some
        { dev_eui := "d", time := 0, dev_voltage := 120,
          dev_current := 1, dev_power := 50, dev_frequency := 60,
          dev_energy_in := 1000, dev_energy_out := 0,
          dev_status_on := true }) = .reject .OVER_ENERGY .MAJOR ∧
    specEnergyDivisor 3600 0 = 1 := by
  constructor
  · exact (energy_rate_alarm_boundary.1 _ _
      (by with_unfolding_all decide) (by with_unfolding_all decide)
      (by with_unfolding_all decide)).mpr (by with_unfolding_all decide)
  · have := energy_rate_alarm_boundary.2.1 3600 0 (by omega)
    simpa using this.symm

/-! ## Summary savings percentage (claim C4) -/

/-- Counterexample to claim C4 as stated.  First, the claim's own
instance: a summary with `energy_in = 900000` and `on_time = 12 *
3600` over one device yields `-29900.0` (the code divides nothing by
1000 in the savings formula; the instance holds only at
`energy_in = 900`), not `100 * (250 * 12 - 900) / (250 * 12) = 70`.
Second, the returned percentage is rounded to ONE decimal place, so it
does not in general equal the unrounded formula: at `energy_in = 1`,
`on_time = 3 * 3600` the formula gives `1498/15 = 99.8666...` while
the code returns `99.9`. -/
theorem savings_pct_counterexample :
    (get_energy_savings_summary
      (some { ndevices := 1, energy_in := 900000, on_time := 43200 })
      ).percentage = -29900 ∧
    (100 : ℚ) * (250 * 12 - 900) / (250 * 12) = 70 ∧
    ¬((-29900 : ℚ) = 70) ∧
    (get_energy_savings_summary
      (some { ndevices := 1, energy_in := 1, on_time := 10800 })
      ).percentage = 999 / 10 ∧
    specSavingsPct 1 10800 = 1498 / 15 ∧
    ¬((999 : ℚ) / 10 = 1498 / 15) := by
  refine ⟨?_, by norm_num, by norm_num, by with_unfolding_all decide,
    by with_unfolding_all decide, by norm_num⟩
  simp only [get_energy_savings_summary, pyRound]
  norm_num

/-- Claim C4 (amended): the savings percentage returned by the
summary calculator equals `100 * (baseline - energy_in) / baseline`
(baseline `250 * (on_time / 3600)`, percentage 0 on a 0 baseline)
rounded to one decimal place; for a summary with `on_time = 12 * 3600`
and `energy_in = 900` (the summary-table unit of the claim's
`900000`-raw-counter example) over 1 device the result is exactly
`70.0 = 100 * (250 * 12 - 900) / (250 * 12)`. -/
theorem savings_pct_formula :
    (∀ summ : StreetlampStateSummary,
      (get_energy_savings_summary (some summ)).percentage =
        pyRound 1 (specSavingsPct summ.energy_in summ.on_time)) ∧
    (∀ summ : StreetlampStateSummary, summ.on_time = 0 →
      (get_energy_savings_summary (some summ)).percentage = 0) ∧
    (get_energy_savings_summary
      (some { ndevices := 1, energy_in := 900, on_time := 43200 })
      ).percentage = 70 ∧
    (100 : ℚ) * (250 * 12 - 900) / (250 * 12) = 70 := by
  have hformula : ∀ summ : StreetlampStateSummary,
      (get_energy_savings_summary (some summ)).percentage =
        pyRound 1 (specSavingsPct summ.energy_in summ.on_time) := by
    intro summ
    unfold get_energy_savings_summary specSavingsPct
    by_cases h : (250 : ℚ) * (summ.on_time / 3600) = 0 <;> simp [h]
  have hzero : pyRound 1 0 = 0 := by with_unfolding_all decide
  refine ⟨hformula, ?_, by with_unfolding_all decide, by norm_num⟩
  intro summ h
  rw [hformula]
  have : specSavingsPct summ.energy_in summ.on_time = 0 := by
    unfold specSavingsPct
    rw [h]
    norm_num
  rw [this, hzero]

/-- Witness for the amended C4: the formula equation applied at a
concrete summary, and the zero-baseline clause at a zero on-time
summary. -/
theorem savings_pct_formula_witness :
    (get_energy_savings_summary
      (some { ndevices := 2, energy_in := 100, on_time := 7200 })
      ).percentage = pyRound 1 (specSavingsPct 100 7200) ∧
    (get_energy_savings_summary
      (some { ndevices := 1, energy_in := 5, on_time := 0 })
      ).percentage = 0 :=
  ⟨savings_pct_formula.1
      ({ ndevices := 2, energy_in := 100, on_time := 7200 } :
        StreetlampStateSummary),
    savings_pct_formula.2.1
      ({ ndevices := 1, energy_in := 5, on_time := 0 } :
        StreetlampStateSummary) rfl⟩

/-! ## Raw ingestion batch consumer (claim C1) -/

/-- Whether the `xdel` call for a message executes and succeeds: the
`create` call (run only when the payload has data) did not raise, and
the deletion itself did not raise. -/
def msgDeleted (m : QueueMsg) : Bool :=
  (!m.hasData || !m.createRaises) && !m.xdelRaises

/-- Counterexample to claim C1 as stated: the batch-processing
function does not return the new cursor to its caller.  On a queue
with one successfully processed message (id 5), the function returns
`None` (not the cursor 5), and the caller's loop keeps calling with
the initial cursor `'0-0'`. -/
theorem proc_batch_counterexample :
    (proc_streetlamp_state_batch 0 1000
      [{ id := 5, hasData := true, createResult := some 1,
         createRaises := false, xdelRaises := false }]).2 = none ∧
    (proc_streetlamp_state_batch 0 1000
      [{ id := 5, hasData := true, createResult := some 1,
         createRaises := false, xdelRaises := false }]).2 ≠ some 5 ∧
    proc_streetlamp_states_iter 0
      [{ id := 5, hasData := true, createResult := some 1,
         createRaises := false, xdelRaises := false }] = (0, []) := by
  decide

theorem xdel_mem {q : List QueueMsg} {i : ℕ} {x : QueueMsg} :
    x ∈ xdel q i ↔ x ∈ q ∧ x.id ≠ i := by
  simp [xdel]

theorem proc_items_step (q : List QueueMsg) (c n : ℕ) (m : QueueMsg)
    (rest : List QueueMsg) :
    proc_items q c n (m :: rest) =
      proc_items (if msgDeleted m then xdel q m.id else q) m.id
        (if m.hasData && !m.createRaises && m.createResult.isSome then
          n + 1 else n) rest := by
  rcases m with ⟨i, hd, cr, cre, xd⟩
  cases hd <;> cases cre <;> cases xd <;> cases cr <;>
    simp [proc_items, msgDeleted]

theorem proc_items_sublist :
    ∀ (ms q : List QueueMsg) (c n : ℕ),
      (proc_items q c n ms).1.Sublist q := by
  intro ms
  induction ms with
  | nil => intro q c n; exact List.Sublist.refl q
  | cons m rest ih =>
      intro q c n
      rw [proc_items_step]
      by_cases h : msgDeleted m = true
      · simp only [h, if_true]
        exact (ih (xdel q m.id) m.id _).trans (List.filter_sublist q)
      · simp only [h, if_false]
        exact ih q m.id _

theorem proc_items_cursor :
    ∀ (ms q : List QueueMsg) (c n : ℕ),
      (proc_items q c n ms).2.1 = (ms.map QueueMsg.id).getLastD c := by
  intro ms
  induction ms with
  | nil => intro q c n; simp [proc_items]
  | cons m rest ih =>
      intro q c n
      rw [proc_items_step, ih]
      rw [List.map_cons, List.getLastD_cons]

theorem proc_items_mem_of_ne :
    ∀ (ms q : List QueueMsg) (c n : ℕ) (x : QueueMsg), x ∈ q →
      (∀ r ∈ ms, r.id ≠ x.id) → x ∈ (proc_items q c n ms).1 := by
  intro ms
  induction ms with
  | nil => intro q c n x hx _; exact hx
  | cons m rest ih =>
      intro q c n x hx hne
      rw [proc_items_step]
      have hx1 : x ∈ (if msgDeleted m then xdel q m.id else q) := by
        by_cases h : msgDeleted m = true
        · simp only [h, if_true]
          exact xdel_mem.mpr ⟨hx, fun he => hne m (by simp) he.symm⟩
        · simp only [h, if_false]
          exact hx
      exact ih _ m.id _ x hx1 (fun r hr => hne r (by simp [hr]))

theorem proc_items_deletion :
    ∀ (ms q : List QueueMsg) (c n : ℕ),
      (q.map QueueMsg.id).Nodup → (∀ m ∈ ms, m ∈ q) →
      (ms.map QueueMsg.id).Nodup →
      ∀ m ∈ ms,
        (msgDeleted m = true → m ∉ (proc_items q c n ms).1) ∧
        (msgDeleted m = false → m ∈ (proc_items q c n ms).1) := by
  intro ms
  induction ms with
  | nil => intro q c n _ _ _ m hm; cases hm
  | cons m0 rest ih =>
      intro q c n hq hmem hnd m hm
      rw [proc_items_step]
      have hrestnd : (rest.map QueueMsg.id).Nodup := by
        simp only [List.map_cons, List.nodup_cons] at hnd
        exact hnd.2
      have hhead : m0.id ∉ rest.map QueueMsg.id := by
        simp only [List.map_cons, List.nodup_cons] at hnd
        exact hnd.1
      rcases List.mem_cons.mp hm with rfl | hmrest
      · constructor
        · intro hdel
          simp only [hdel, if_true]
          intro hmemfin
          have : m ∈ xdel q m.id :=
            (proc_items_sublist rest _ m.id _).subset hmemfin
          exact (xdel_mem.mp this).2 rfl
        · intro hdel
          simp only [hdel, Bool.false_eq_true, if_false]
          refine proc_items_mem_of_ne rest q m.id _ m (hmem m (by simp))
            ?_
          intro r hr he
          exact hhead (he ▸ List.mem_map_of_mem QueueMsg.id hr)
      · have hq1 : ∀ b : Bool,
            (((if msgDeleted m0 then xdel q m0.id else q)).map
              QueueMsg.id).Nodup := by
          intro _
          by_cases h : msgDeleted m0 = true
          · simp only [h, if_true]
            exact ((List.filter_sublist q).map QueueMsg.id).nodup hq
          · simp only [h, if_false]
            exact hq
        have hmem1 : ∀ r ∈ rest,
            r ∈ (if msgDeleted m0 then xdel q m0.id else q) := by
          intro r hr
          by_cases h : msgDeleted m0 = true
          · simp only [h, if_true]
            refine xdel_mem.mpr ⟨hmem r (by simp [hr]), ?_⟩
            intro he
            exact hhead (he ▸ List.mem_map_of_mem QueueMsg.id hr)
          · simp only [h, if_false]
            exact hmem r (by simp [hr])
        exact ih _ m0.id _ (hq1 true) hmem1 hrestnd m hmrest

/-- Claim C1 (amended): for every batch, after each message read is
processed the local cursor is advanced to that message's id (so the
failure of one message does not block cursor advancement), and the
message is deleted from the queue exactly when no `redis.RedisError`
was raised while handling it -- a message whose `create` or deletion
raised is left in place.  But the batch function returns `None`, not
the cursor: the caller's loop never reassigns `last_id_seen`, so every
batch is read with the initial cursor `'0-0'` and already-handled
messages are only kept from reprocessing by their deletion (a message
left in place is re-read by the next batch: at-least-once delivery for
it). -/
theorem proc_batch_behavior :
    (∀ (cursor bs : ℕ) (queue : List QueueMsg),
      (proc_streetlamp_state_batch cursor bs queue).2 = none) ∧
    (∀ (cursor : ℕ) (queue : List QueueMsg),
      (proc_streetlamp_states_iter cursor queue).1 = cursor) ∧
    (∀ (cursor bs : ℕ) (queue : List QueueMsg),
      (proc_streetlamp_state_batch cursor bs queue).1.2.1 =
        ((xread queue cursor bs).map QueueMsg.id).getLastD cursor) ∧
    (∀ (cursor bs : ℕ) (queue : List QueueMsg),
      (queue.map QueueMsg.id).Nodup →
      ∀ m ∈ xread queue cursor bs,
        (msgDeleted m = true →
          m ∉ (proc_streetlamp_state_batch cursor bs queue).1.1) ∧
        (msgDeleted m = false →
          m ∈ (proc_streetlamp_state_batch cursor bs queue).1.1)) := by
  refine ⟨fun _ _ _ => rfl, fun _ _ => rfl, ?_, ?_⟩
  · intro cursor bs queue
    exact proc_items_cursor _ _ _ _
  · intro cursor bs queue hq m hm
    have hsub : (xread queue cursor bs).Sublist queue :=
      (List.take_sublist _ _).trans (List.filter_sublist queue)
    exact proc_items_deletion _ _ _ _ hq
      (fun r hr => hsub.subset hr) ((hsub.map QueueMsg.id).nodup hq) m hm

/-- Witness for the amended C1: on a queue of two messages where the
first succeeds and the second's deletion raises, the theorem applied
concretely shows the first removed and the second left in place. -/
theorem proc_batch_behavior_witness :
    (([{ id := 5, hasData := true, createResult := some 1,
         createRaises := false, xdelRaises := false },
       { id := 7, hasData := true, createResult := some 2,
         createRaises := false, xdelRaises := true }] :
      List QueueMsg).map QueueMsg.id).Nodup ∧
    ({ id := 5, hasData := true, createResult := some 1,
       createRaises := false, xdelRaises := false } : QueueMsg) ∉
      (proc_streetlamp_state_batch 0 1000
        [{ id := 5, hasData := true, createResult := some 1,
           createRaises := false, xdelRaises := false },
         { id := 7, hasData := true, createResult := some 2,
           createRaises := false, xdelRaises := true }]).1.1 ∧
    ({ id := 7, hasData := true, createResult := some 2,
       createRaises := false, xdelRaises := true } : QueueMsg) ∈
      (proc_streetlamp_state_batch 0 1000
        [{ id := 5, hasData := true, createResult := some 1,
           createRaises := false, xdelRaises := false },
         { id := 7, hasData := true, createResult := some 2,
           createRaises := false, xdelRaises := true }]).1.1 :=
  ⟨by decide,
    (proc_batch_behavior.2.2.2 0 1000 _ (by decide) _ (by decide)).1
      (by decide),
    (proc_batch_behavior.2.2.2 0 1000 _ (by decide) _ (by decide)).2
      (by decide)⟩

/-! ## Watermark invariant (claim C5) -/

theorem watermark_inv_step :
    ∀ (l : List (String × StreamSt)) (op : StoreOp),
      WatermarkInv l = true → opGuard l op →
      WatermarkInv (applyStoreOp l op) = true := by
  intro l op hI hg
  cases op with
  | updProd nm ts =>
      simp only [applyStoreOp, update_producer]
      by_cases hany : l.any (fun p => p.1 == nm) = true
      · simp only [hany, if_true]
        simp only [WatermarkInv, List.all_eq_true] at hI ⊢
        intro e he
        rcases List.mem_map.mp he with ⟨e0, he0, rfl⟩
        by_cases hnm : (e0.1 == nm) = true
        · simp only [hnm, if_true]
          cases hc : e0.2.consumer_ts with
          | none => simp [hc]
          | some c =>
              have hle := hg e0 he0 (by simpa using hnm) c hc
              simp [hc, hle]
        · simp only [hnm, if_false]
          exact hI e0 he0
      · simp only [hany, if_false]
        simp only [WatermarkInv, List.all_eq_true] at hI ⊢
        intro e he
        rcases List.mem_append.mp he with h | h
        · exact hI e h
        · simp only [List.mem_singleton] at h
          subst h
          simp
  | updCons nm ts =>
      simp only [applyStoreOp, update_consumer]
      simp only [WatermarkInv, List.all_eq_true] at hI ⊢
      intro e he
      rcases List.mem_map.mp he with ⟨e0, he0, rfl⟩
      by_cases hnm : (e0.1 == nm) = true
      · simp only [hnm, if_true]
        have hp := hg e0 he0 (by simpa using hnm)
        simp [hp]
      · simp only [hnm, if_false]
        exact hI e0 he0

/-- Claim C5 (amended): the invariant `consumer_ts ≤ producer_ts` is
preserved by every sequence of watermark writes in which each consumer
update writes the stream's current producer timestamp back (as every
aggregation stage does: it sets `consumer_ts` to the `t1` it just read
from `producer_ts`) and each producer update carries a timestamp not
below the stream's existing consumer.  It is NOT preserved by
arbitrary pipeline interleavings: `update_producer` is last-write-wins
and an out-of-order (late) reading moves the hourly producer backwards
below the consumer (see the counterexample). -/
theorem watermark_inv_preserved :
    ∀ (ops : List StoreOp) (l : List (String × StreamSt)),
      WatermarkInv l = true → SafeTrace l ops →
      WatermarkInv (ops.foldl applyStoreOp l) = true := by
  intro ops
  induction ops with
  | nil => intro l hI _; exact hI
  | cons op rest ih =>
      intro l hI htr
      cases htr with
      | cons hg hrest =>
          exact ih (applyStoreOp l op) (watermark_inv_step l op hI hg)
            hrest

/-- Witness for the amended C5: a two-operation safe trace (a producer
update followed by the consumer update writing the producer value
back) applied concretely. -/
theorem watermark_inv_preserved_witness :
    WatermarkInv [("streetlamp:state:hourly:d",
      { producer_ts := some 3600, consumer_ts := none })] = true ∧
    WatermarkInv
      ([StoreOp.updProd "streetlamp:state:hourly:d" 7200,
        StoreOp.updCons "streetlamp:state:hourly:d" 7200].foldl
        applyStoreOp
        [("streetlamp:state:hourly:d",
          { producer_ts := some 3600, consumer_ts := none })]) = true :=
  ⟨by decide,
    watermark_inv_preserved _ _ (by decide)
      (SafeTrace.cons (by intro e he hnm c hc; simp_all)
        (SafeTrace.cons (by intro e he hnm; simp_all [applyStoreOp,
          update_producer]) (SafeTrace.nil _)))⟩

/-! ## Step-characterization lemmas for the pipeline functions -/

theorem create_step_accept (s : PipelineSt) (ssc : StateCandidate)
    (h : validate_state ssc
      (find_latest_by_dev_eui s.streetlamp_states ssc.dev_eui) =
      .accept) :
    create_step s ssc =
      ({ s with
          streetlamp_states := s.streetlamp_states ++
            [{ dev_eui := ssc.dev_eui
               time := ssc.time
               dev_voltage := ssc.dev_voltage.toQ
               dev_current := ssc.dev_current.toQ
               dev_power := ssc.dev_power.toQ
               dev_frequency := ssc.dev_frequency.toQ
               dev_energy_in := ssc.dev_energy_in.toQ
               dev_energy_out := ssc.dev_energy_out.toQ
               dev_status_on := ssc.dev_status_on }]
          stream_states := update_producer s.stream_states
            (hourly_stream_name ssc.dev_eui) (iRoundHour ssc.time) },
        some (s.streetlamp_states.length + 1)) := by
  unfold create_step
  rw [h]

theorem create_step_reject (s : PipelineSt) (ssc : StateCandidate)
    (atype : AlarmType) (severity : AlarmSeverity)
    (h : validate_state ssc
      (find_latest_by_dev_eui s.streetlamp_states ssc.dev_eui) =
      .reject atype severity) :
    create_step s ssc =
      ({ s with streetlamp_alarms := s.streetlamp_alarms ++
          [make_alarm ssc atype severity] }, none) := by
  unfold create_step
  rw [h]

theorem hourly_agg_step_none (s : PipelineSt) (d : String)
    (h : get_hourly_range s (hourly_stream_name d) d = none) :
    hourly_agg_step s d = (s, 0) := by
  unfold hourly_agg_step
  rw [h]

theorem hourly_agg_step_some (s : PipelineSt) (d : String) (t0 t1 : ℤ)
    (h : get_hourly_range s (hourly_stream_name d) d = some (t0, t1)) :
    hourly_agg_step s d =
      ({ s with
          hourly_states :=
            (hourly_pull_rows s.streetlamp_states d t0 t1).foldl
              upsertRollup s.hourly_states
          stream_states := update_producer
            (update_consumer s.stream_states (hourly_stream_name d)
              (some t1))
            (daily_stream_name d) (iRoundDay t1) },
        (hourly_pull_rows s.streetlamp_states d t0 t1).length) := by
  unfold hourly_agg_step
  rw [h]

theorem daily_agg_step_none (s : PipelineSt) (d : String)
    (h : get_daily_range s (daily_stream_name d) d = none) :
    daily_agg_step s d = (s, 0) := by
  unfold daily_agg_step
  rw [h]

theorem daily_agg_step_some (s : PipelineSt) (d : String) (t0 t1 : ℤ)
    (h : get_daily_range s (daily_stream_name d) d = some (t0, t1)) :
    daily_agg_step s d =
      ({ s with
          daily_states :=
            (rollup_pull_rows s.hourly_states iRoundDay d t0 t1).foldl
              upsertRollup s.daily_states
          stream_states := update_producer
            (update_producer
              (update_consumer s.stream_states (daily_stream_name d)
                (some t1))
              (weekly_stream_name d) (iRoundWeek t1))
            (monthly_stream_name d) (iRoundMonth t1) },
        (rollup_pull_rows s.hourly_states iRoundDay d t0 t1).length) := by
  unfold daily_agg_step
  rw [h]

theorem weekly_agg_step_none (s : PipelineSt) (d : String)
    (h : get_weekly_range s (weekly_stream_name d) d = none) :
    weekly_agg_step s d = (s, 0) := by
  unfold weekly_agg_step
  rw [h]

theorem weekly_agg_step_some (s : PipelineSt) (d : String) (t0 t1 : ℤ)
    (h : get_weekly_range s (weekly_stream_name d) d = some (t0, t1)) :
    weekly_agg_step s d =
      ({ s with
          weekly_states :=
            (rollup_pull_rows s.daily_states iRoundWeek d t0 t1).foldl
              upsertRollup s.weekly_states
          stream_states := update_consumer s.stream_states
            (weekly_stream_name d) (some t1) },
        (rollup_pull_rows s.daily_states iRoundWeek d t0 t1).length) := by
  unfold weekly_agg_step
  rw [h]

theorem monthly_agg_step_none (s : PipelineSt) (d : String)
    (h : get_monthly_range s (monthly_stream_name d) d = none) :
    monthly_agg_step s d = (s, 0) := by
  unfold monthly_agg_step
  rw [h]

theorem monthly_agg_step_some (s : PipelineSt) (d : String) (t0 t1 : ℤ)
    (h : get_monthly_range s (monthly_stream_name d) d = some (t0, t1)) :
    monthly_agg_step s d =
      ({ s with
          monthly_states :=
            (rollup_pull_rows s.daily_states iRoundMonth d t0 t1).foldl
              upsertRollup s.monthly_states
          stream_states := update_consumer s.stream_states
            (monthly_stream_name d) (some t1) },
        (rollup_pull_rows s.daily_states iRoundMonth d t0 t1).length) := by
  unfold monthly_agg_step
  rw [h]

theorem hourly_aggregate_devs_nil (s : PipelineSt) :
    hourly_aggregate_devs s [] = (s, 0) := rfl

theorem hourly_aggregate_devs_cons (s : PipelineSt) (d : String)
    (ds : List String) :
    hourly_aggregate_devs s (d :: ds) =
      ((hourly_aggregate_devs (hourly_agg_step s d).1 ds).1,
        (hourly_agg_step s d).2 +
          (hourly_aggregate_devs (hourly_agg_step s d).1 ds).2) := rfl

theorem daily_aggregate_devs_nil (s : PipelineSt) :
    daily_aggregate_devs s [] = (s, 0) := rfl

theorem daily_aggregate_devs_cons (s : PipelineSt) (d : String)
    (ds : List String) :
    daily_aggregate_devs s (d :: ds) =
      ((daily_aggregate_devs (daily_agg_step s d).1 ds).1,
        (daily_agg_step s d).2 +
          (daily_aggregate_devs (daily_agg_step s d).1 ds).2) := rfl

theorem weekly_aggregate_devs_nil (s : PipelineSt) :
    weekly_aggregate_devs s [] = (s, 0) := rfl

theorem weekly_aggregate_devs_cons (s : PipelineSt) (d : String)
    (ds : List String) :
    weekly_aggregate_devs s (d :: ds) =
      ((weekly_aggregate_devs (weekly_agg_step s d).1 ds).1,
        (weekly_agg_step s d).2 +
          (weekly_aggregate_devs (weekly_agg_step s d).1 ds).2) := rfl

theorem monthly_aggregate_devs_nil (s : PipelineSt) :
    monthly_aggregate_devs s [] = (s, 0) := rfl

theorem monthly_aggregate_devs_cons (s : PipelineSt) (d : String)
    (ds : List String) :
    monthly_aggregate_devs s (d :: ds) =
      ((monthly_aggregate_devs (monthly_agg_step s d).1 ds).1,
        (monthly_agg_step s d).2 +
          (monthly_aggregate_devs (monthly_agg_step s d).1 ds).2) := rfl

/-- Counterexample to claim C5 as stated: a realistic pipeline
sequence violates the invariant.  Ingest readings for device `d` at
10:00 and 11:00, run the hourly aggregation pass (the hourly stream
ends with `producer_ts = consumer_ts = 11:00`), then ingest a late
reading timestamped 08:30: `create` advances the producer watermark
with last-write-wins to `round_to_hour(08:30) = 08:00`, leaving
`producer_ts = 08:00 < consumer_ts = 11:00`. -/
theorem watermark_inv_counterexample :
    WatermarkInv c5_final.stream_states = false ∧
    find_by_name c5_final.stream_states (hourly_stream_name "d") =
      some { producer_ts := some 28800, consumer_ts := some 39600 } := by
  have v1 : validate_state (c5_reading "a" 36000)
      (find_latest_by_dev_eui c5_initial.streetlamp_states
        (c5_reading "a" 36000).dev_eui) = .accept := by
    with_unfolding_all decide
  have e1 := create_step_accept c5_initial (c5_reading "a" 36000) v1
  have s1 : c5_after_first.stream_states =
      [(hourly_stream_name "d",
        { producer_ts := some 36000, consumer_ts := none })] := by
    unfold c5_after_first
    rw [e1]
    simp [c5_initial, c5_reading, update_producer, iRoundHour]
    decide
  have r1 : c5_after_first.streetlamp_states =
      [{ dev_eui := "d", time := 36000, dev_voltage := 120,
         dev_current := 1, dev_power := 50, dev_frequency := 60,
         dev_energy_in := 0, dev_energy_out := 0,
         dev_status_on := true }] := by
    unfold c5_after_first
    rw [e1]
    simp [c5_initial, c5_reading, PyFloat.toQ]
  have v2 : validate_state (c5_reading "b" 39600)
      (find_latest_by_dev_eui c5_after_first.streetlamp_states
        (c5_reading "b" 39600).dev_eui) = .accept := by
    rw [r1]
    with_unfolding_all decide
  have e2 := create_step_accept c5_after_first (c5_reading "b" 39600) v2
  have s2 : c5_after_second.stream_states =
      [(hourly_stream_name "d",
        { producer_ts := some 39600, consumer_ts := none })] := by
    unfold c5_after_second
    rw [e2]
    dsimp only
    rw [s1]
    simp [c5_reading, update_producer, iRoundHour]
    decide
  have r2 : c5_after_second.streetlamp_states =
      [{ dev_eui := "d", time := 36000, dev_voltage := 120,
         dev_current := 1, dev_power := 50, dev_frequency := 60,
         dev_energy_in := 0, dev_energy_out := 0,
         dev_status_on := true },
       { dev_eui := "d", time := 39600, dev_voltage := 120,
         dev_current := 1, dev_power := 50, dev_frequency := 60,
         dev_energy_in := 0, dev_energy_out := 0,
         dev_status_on := true }] := by
    unfold c5_after_second
    rw [e2]
    dsimp only
    rw [r1]
    simp [c5_reading, PyFloat.toQ]
  have l2 : c5_after_second.streetlamps = ["d"] := by
    unfold c5_after_second
    rw [e2]
    dsimp only
    unfold c5_after_first
    rw [e1]
    simp [c5_initial]
  have rng : get_hourly_range c5_after_second (hourly_stream_name "d")
      "d" = some (36000, 39600) := by
    unfold get_hourly_range
    rw [s2, r2]
    simp [find_by_name, find_oldest_by_dev_eui, iRoundHour]
    decide
  have e3 := hourly_agg_step_some c5_after_second "d" 36000 39600 rng
  have s3 : c5_after_agg.stream_states =
      [(hourly_stream_name "d",
        { producer_ts := some 39600, consumer_ts := some 39600 }),
       (daily_stream_name "d",
        { producer_ts := some 0, consumer_ts := none })] := by
    unfold c5_after_agg hourly_aggregate
    rw [l2, hourly_aggregate_devs_cons, e3, hourly_aggregate_devs_nil]
    dsimp only
    rw [s2]
    simp [update_producer, update_consumer, hourly_stream_name,
      daily_stream_name, iRoundDay]
    decide
  have r3 : c5_after_agg.streetlamp_states =
      c5_after_second.streetlamp_states := by
    unfold c5_after_agg hourly_aggregate
    rw [l2, hourly_aggregate_devs_cons, e3, hourly_aggregate_devs_nil]
  have v4 : validate_state (c5_reading "c" 30600)
      (find_latest_by_dev_eui c5_after_agg.streetlamp_states
        (c5_reading "c" 30600).dev_eui) = .accept := by
    rw [r3, r2]
    with_unfolding_all decide
  have e4 := create_step_accept c5_after_agg (c5_reading "c" 30600) v4
  have s4 : c5_final.stream_states =
      [(hourly_stream_name "d",
        { producer_ts := some 28800, consumer_ts := some 39600 }),
       (daily_stream_name "d",
        { producer_ts := some 0, consumer_ts := none })] := by
    unfold c5_final
    rw [e4]
    dsimp only
    rw [s3]
    simp [c5_reading, update_producer, hourly_stream_name,
      daily_stream_name, iRoundHour]
    decide
  rw [s4]
  refine ⟨by decide, ?_⟩
  simp [find_by_name, hourly_stream_name]

/-! ## Aggregation failure semantics (claim C2) -/

theorem hourly_agg_stepE_ok (s : PipelineSt) (d : String) :
    hourly_agg_stepE okEnv s d = .ok (hourly_agg_step s d) := by
  cases hr : get_hourly_range s (hourly_stream_name d) d with
  | none => simp [hourly_agg_stepE, hourly_agg_step, hr]
  | some p => simp [hourly_agg_stepE, hourly_agg_step, hr, okEnv]

theorem daily_agg_stepE_ok (s : PipelineSt) (d : String) :
    daily_agg_stepE okEnv s d = .ok (daily_agg_step s d) := by
  cases hr : get_daily_range s (daily_stream_name d) d with
  | none => simp [daily_agg_stepE, daily_agg_step, hr]
  | some p => simp [daily_agg_stepE, daily_agg_step, hr, okEnv]

theorem weekly_agg_stepE_ok (s : PipelineSt) (d : String) :
    weekly_agg_stepE okEnv s d = .ok (weekly_agg_step s d) := by
  cases hr : get_weekly_range s (weekly_stream_name d) d with
  | none => simp [weekly_agg_stepE, weekly_agg_step, hr]
  | some p => simp [weekly_agg_stepE, weekly_agg_step, hr, okEnv]

theorem monthly_agg_stepE_ok (s : PipelineSt) (d : String) :
    monthly_agg_stepE okEnv s d = .ok (monthly_agg_step s d) := by
  cases hr : get_monthly_range s (monthly_stream_name d) d with
  | none => simp [monthly_agg_stepE, monthly_agg_step, hr]
  | some p => simp [monthly_agg_stepE, monthly_agg_step, hr, okEnv]

theorem hourly_aggregate_devsE_ok :
    ∀ (ds : List String) (s : PipelineSt),
      hourly_aggregate_devsE okEnv s ds =
        .ok (hourly_aggregate_devs s ds) := by
  intro ds
  induction ds with
  | nil => intro s; rfl
  | cons d rest ih =>
      intro s
      rw [hourly_aggregate_devs_cons]
      show (match hourly_agg_stepE okEnv s d with
        | Except.error e => Except.error e
        | Except.ok r =>
            match hourly_aggregate_devsE okEnv r.1 rest with
            | Except.error e => Except.error e
            | Except.ok rest2 => Except.ok (rest2.1, r.2 + rest2.2)) = _
      rw [hourly_agg_stepE_ok]
      dsimp only
      rw [ih]

theorem daily_aggregate_devsE_ok :
    ∀ (ds : List String) (s : PipelineSt),
      daily_aggregate_devsE okEnv s ds =
        .ok (daily_aggregate_devs s ds) := by
  intro ds
  induction ds with
  | nil => intro s; rfl
  | cons d rest ih =>
      intro s
      rw [daily_aggregate_devs_cons]
      show (match daily_agg_stepE okEnv s d with
        | Except.error e => Except.error e
        | Except.ok r =>
            match daily_aggregate_devsE okEnv r.1 rest with
            | Except.error e => Except.error e
            | Except.ok rest2 => Except.ok (rest2.1, r.2 + rest2.2)) = _
      rw [daily_agg_stepE_ok]
      dsimp only
      rw [ih]

theorem weekly_aggregate_devsE_ok :
    ∀ (ds : List String) (s : PipelineSt),
      weekly_aggregate_devsE okEnv s ds =
        .ok (weekly_aggregate_devs s ds) := by
  intro ds
  induction ds with
  | nil => intro s; rfl
  | cons d rest ih =>
      intro s
      rw [weekly_aggregate_devs_cons]
      show (match weekly_agg_stepE okEnv s d with
        | Except.error e => Except.error e
        | Except.ok r =>
            match weekly_aggregate_devsE okEnv r.1 rest with
            | Except.error e => Except.error e
            | Except.ok rest2 => Except.ok (rest2.1, r.2 + rest2.2)) = _
      rw [weekly_agg_stepE_ok]
      dsimp only
      rw [ih]

theorem monthly_aggregate_devsE_ok :
    ∀ (ds : List String) (s : PipelineSt),
      monthly_aggregate_devsE okEnv s ds =
        .ok (monthly_aggregate_devs s ds) := by
  intro ds
  induction ds with
  | nil => intro s; rfl
  | cons d rest ih =>
      intro s
      rw [monthly_aggregate_devs_cons]
      show (match monthly_agg_stepE okEnv s d with
        | Except.error e => Except.error e
        | Except.ok r =>
            match monthly_aggregate_devsE okEnv r.1 rest with
            | Except.error e => Except.error e
            | Except.ok rest2 => Except.ok (rest2.1, r.2 + rest2.2)) = _
      rw [monthly_agg_stepE_ok]
      dsimp only
      rw [ih]

/-- Claim C2 (amended): `aggregate()` contains no per-device exception
handling.  When no call fails it returns the total row count over all
devices; but a failure while processing a single device propagates out
of `aggregate()`, aborting the remaining devices (and the later
stages), and is caught, logged and rolled back one level up in
`run_agg_process` -- no count is returned for the pass. -/
theorem aggregate_failure_semantics :
    (∀ s : PipelineSt,
      hourly_aggregateE okEnv s = .ok (hourly_aggregate s)) ∧
    (∀ s : PipelineSt,
      daily_aggregateE okEnv s = .ok (daily_aggregate s)) ∧
    (∀ s : PipelineSt,
      weekly_aggregateE okEnv s = .ok (weekly_aggregate s)) ∧
    (∀ s : PipelineSt,
      monthly_aggregateE okEnv s = .ok (monthly_aggregate s)) ∧
    (∀ (env : AggEnv) (s : PipelineSt) (d : String) (ds : List String)
        (t0 t1 : ℤ),
      get_hourly_range s (hourly_stream_name d) d = some (t0, t1) →
      env.pullFails "hourly" d = true →
      hourly_aggregate_devsE env s (d :: ds) =
        .error (.pullFailure "hourly" d)) ∧
    (∀ (env : AggEnv) (s : PipelineSt) (e : AggErr),
      hourly_aggregateE env s = .error e →
      run_agg_process env s = (s, some e)) := by
  refine ⟨fun s => hourly_aggregate_devsE_ok s.streetlamps s,
    fun s => daily_aggregate_devsE_ok s.streetlamps s,
    fun s => weekly_aggregate_devsE_ok s.streetlamps s,
    fun s => monthly_aggregate_devsE_ok s.streetlamps s, ?_, ?_⟩
  · intro env s d ds t0 t1 hr hf
    show (match hourly_agg_stepE env s d with
      | Except.error e => Except.error e
      | Except.ok r =>
          match hourly_aggregate_devsE env r.1 ds with
          | Except.error e => Except.error e
          | Except.ok rest2 => Except.ok (rest2.1, r.2 + rest2.2)) = _
    unfold hourly_agg_stepE
    rw [hr, hf]
    simp
  · intro env s e h
    unfold run_agg_process
    rw [h]
    rfl

/-- Counterexample to claim C2 as stated: with two devices `d1`, `d2`
both having pending hourly ranges and the `pull` call for `d1`
raising, `aggregate()` does not log-and-continue: it returns the
error (no row count across the devices that succeeded -- `d2` is not
processed at all, although its range is pending), and the exception is
caught and logged only in `run_agg_process`, which rolls the whole
pass back. -/
theorem aggregate_failure_counterexample :
    hourly_aggregateE c2_env c2_state =
      .error (.pullFailure "hourly" "d1") ∧
    get_hourly_range c2_state (hourly_stream_name "d2") "d2" =
      some (36000, 39600) ∧
    run_agg_process c2_env c2_state =
      (c2_state, some (.pullFailure "hourly" "d1")) := by
  have rng1 : get_hourly_range c2_state (hourly_stream_name "d1") "d1" =
      some (36000, 39600) := by
    unfold get_hourly_range find_by_name c2_state
    simp [hourly_stream_name]
  have herr : hourly_aggregateE c2_env c2_state =
      .error (.pullFailure "hourly" "d1") := by
    show hourly_aggregate_devsE c2_env c2_state ["d1", "d2"] = _
    exact aggregate_failure_semantics.2.2.2.2.1 c2_env c2_state "d1"
      ["d2"] 36000 39600 rng1 rfl
  have hlow : ("streetlamp:state:hourly:d1".toLower ==
      "streetlamp:state:hourly:d2".toLower) = false := by
    with_unfolding_all rfl
  refine ⟨herr, ?_, aggregate_failure_semantics.2.2.2.2.2 c2_env
    c2_state _ herr⟩
  unfold get_hourly_range find_by_name c2_state
  simp [hourly_stream_name, hlow]

/-- Witness for the amended C2: the no-failure correspondence and the
single-failure abort applied to the concrete two-device scenario. -/
theorem aggregate_failure_semantics_witness :
    hourly_aggregateE okEnv c2_state = .ok (hourly_aggregate c2_state) ∧
    get_hourly_range c2_state (hourly_stream_name "d1") "d1" =
      some (36000, 39600) ∧
    c2_env.pullFails "hourly" "d1" = true ∧
    hourly_aggregate_devsE c2_env c2_state ["d1", "d2"] =
      .error (.pullFailure "hourly" "d1") := by
  have rng1 : get_hourly_range c2_state (hourly_stream_name "d1") "d1" =
      some (36000, 39600) := by
    unfold get_hourly_range find_by_name c2_state
    simp [hourly_stream_name]
  exact ⟨aggregate_failure_semantics.1 c2_state, rng1, rfl,
    aggregate_failure_semantics.2.2.2.2.1 c2_env c2_state "d1" ["d2"]
      36000 39600 rng1 rfl⟩

/-! ## Timezone behavior of the truncation helpers (claim C10) -/

/-- Claim C10: `round_to_day` (via `datetime.combine` with `time.min`)
and `round_to_week` (built on `round_to_day`) drop the `tzinfo` --
their results are naive for every input -- while `round_to_hour`
(via `dt.replace`) preserves the input's `tzinfo`.  Consequently the
daily producer watermark value `round_to_day(t1)` and the weekly
producer value `round_to_week(t1)` are written naive (for `t1` the
timezone-converted producer bound), while the hourly producer value
`round_to_hour(time)` written by `create` for the timezone-aware
converted reading time is timezone-aware. -/
theorem round_to_day_drops_tz :
    (∀ dt : PyDateTime, (round_to_day dt).tz = none) ∧
    (∀ dt : PyDateTime, (round_to_week dt).tz = none) ∧
    (∀ dt : PyDateTime, (round_to_hour dt).tz = dt.tz) ∧
    (∀ (localOff : ℤ) (t : PyDateTime),
      (round_to_hour (astimezone localOff sdOffset t)).tz =
        some sdOffset) ∧
    (∀ (localOff : ℤ) (t1 : PyDateTime),
      (round_to_day (convert_to_default_tz localOff t1)).tz = none ∧
      (round_to_week (convert_to_default_tz localOff t1)).tz = none ∧
      (convert_to_default_tz localOff t1).tz = some sdOffset) :=
  ⟨fun _ => rfl, fun _ => rfl, fun _ => rfl, fun _ _ => rfl,
    fun _ _ => ⟨rfl, rfl, rfl⟩⟩

/-! ## Stream name facts -/

theorem string_append_inj_right {p d1 d2 : String}
    (h : p ++ d1 = p ++ d2) : d1 = d2 := by
  apply String.ext
  have h2 := congrArg String.data h
  rw [String.data_append, String.data_append] at h2
  exact List.append_cancel_left h2

theorem string_append_ne_of_char17 {p1 p2 d1 d2 : String}
    (hp1 : 17 < p1.data.length) (hp2 : 17 < p2.data.length)
    (hc : p1.data[17]? ≠ p2.data[17]?) : p1 ++ d1 ≠ p2 ++ d2 := by
  intro h
  apply hc
  have h2 := congrArg String.data h
  rw [String.data_append, String.data_append] at h2
  have ha : (p1.data ++ d1.data)[17]? = p1.data[17]? :=
    List.getElem?_append_left hp1
  have hb : (p2.data ++ d2.data)[17]? = p2.data[17]? :=
    List.getElem?_append_left hp2
  rw [← ha, h2, hb]

theorem hourly_stream_name_inj {d1 d2 : String}
    (h : hourly_stream_name d1 = hourly_stream_name d2) : d1 = d2 :=
  string_append_inj_right h

theorem daily_stream_name_inj {d1 d2 : String}
    (h : daily_stream_name d1 = daily_stream_name d2) : d1 = d2 :=
  string_append_inj_right h

theorem weekly_stream_name_inj {d1 d2 : String}
    (h : weekly_stream_name d1 = weekly_stream_name d2) : d1 = d2 :=
  string_append_inj_right h

theorem monthly_stream_name_inj {d1 d2 : String}
    (h : monthly_stream_name d1 = monthly_stream_name d2) : d1 = d2 :=
  string_append_inj_right h

theorem hourly_ne_daily (d1 d2 : String) :
    hourly_stream_name d1 ≠ daily_stream_name d2 :=
  string_append_ne_of_char17 (by decide) (by decide) (by decide)

theorem hourly_ne_weekly (d1 d2 : String) :
    hourly_stream_name d1 ≠ weekly_stream_name d2 :=
  string_append_ne_of_char17 (by decide) (by decide) (by decide)

theorem hourly_ne_monthly (d1 d2 : String) :
    hourly_stream_name d1 ≠ monthly_stream_name d2 :=
  string_append_ne_of_char17 (by decide) (by decide) (by decide)

theorem daily_ne_weekly (d1 d2 : String) :
    daily_stream_name d1 ≠ weekly_stream_name d2 :=
  string_append_ne_of_char17 (by decide) (by decide) (by decide)

theorem daily_ne_monthly (d1 d2 : String) :
    daily_stream_name d1 ≠ monthly_stream_name d2 :=
  string_append_ne_of_char17 (by decide) (by decide) (by decide)

theorem weekly_ne_monthly (d1 d2 : String) :
    weekly_stream_name d1 ≠ monthly_stream_name d2 :=
  string_append_ne_of_char17 (by decide) (by decide) (by decide)

/-! ## Watermark table lookup and update lemmas -/

theorem find?_map_fst_preserving
    (f : String × StreamSt → String × StreamSt)
    (hf : ∀ p, (f p).1 = p.1) (x : String) :
    ∀ l : List (String × StreamSt),
      (l.map f).find? (fun p => p.1 == x) =
        (l.find? (fun p => p.1 == x)).map f := by
  intro l
  induction l with
  | nil => rfl
  | cons e rest ih =>
      simp only [List.map_cons, List.find?_cons, hf e]
      cases hx : (e.1 == x) with
      | true => simp
      | false => simp [ih]

theorem upd_prod_fun_fst (nm : String) (ts : ℤ)
    (p : String × StreamSt) :
    ((if p.1 == nm then (p.1, { p.2 with producer_ts := some ts })
      else p) : String × StreamSt).1 = p.1 := by
  by_cases h : (p.1 == nm) = true <;> simp [h]

theorem upd_cons_fun_fst (nm : String) (ts : Option ℤ)
    (p : String × StreamSt) :
    ((if p.1 == nm then (p.1, { p.2 with consumer_ts := ts })
      else p) : String × StreamSt).1 = p.1 := by
  by_cases h : (p.1 == nm) = true <;> simp [h]

theorem find_exact_update_producer_ne (l : List (String × StreamSt))
    (nm : String) (ts : ℤ) (x : String) (hne : x ≠ nm) :
    find_exact (update_producer l nm ts) x = find_exact l x := by
  unfold find_exact update_producer
  by_cases hany : l.any (fun p => p.1 == nm) = true
  · simp only [hany, if_true]
    rw [find?_map_fst_preserving _ (upd_prod_fun_fst nm ts) x]
    cases hf : l.find? (fun p => p.1 == x) with
    | none => rfl
    | some e =>
        have he := List.find?_some hf
        have hex : e.1 = x := by simpa using he
        have hni : e.1 ≠ nm := by
          rw [hex]
          exact hne
        simp [hni]
  · rw [if_neg hany, List.find?_append]
    have hx : ((nm, ({ producer_ts := some ts, consumer_ts := none } :
        StreamSt)).1 == x) = false := by
      simpa using fun h => hne h.symm
    simp [List.find?_cons, hx, Option.or_none]

theorem find_exact_update_producer_self (l : List (String × StreamSt))
    (nm : String) (ts : ℤ) :
    find_exact (update_producer l nm ts) nm =
      some (match find_exact l nm with
        | some e => (e.1, { e.2 with producer_ts := some ts })
        | none =>
            (nm, { producer_ts := some ts, consumer_ts := none })) := by
  unfold find_exact update_producer
  by_cases hany : l.any (fun p => p.1 == nm) = true
  · simp only [hany, if_true]
    rw [find?_map_fst_preserving _ (upd_prod_fun_fst nm ts) nm]
    cases hf : l.find? (fun p => p.1 == nm) with
    | none =>
        exfalso
        rcases List.any_eq_true.mp hany with ⟨e, he, hpe⟩
        exact (List.find?_eq_none.mp hf e he) hpe
    | some e =>
        have hex : e.1 = nm := by simpa using List.find?_some hf
        simp [hex]
  · rw [if_neg hany]
    have hnone : l.find? (fun p => p.1 == nm) = none := by
      rw [List.find?_eq_none]
      intro x hx hpx
      exact absurd (List.any_eq_true.mpr ⟨x, hx, hpx⟩) hany
    rw [List.find?_append, hnone]
    simp [List.find?_cons]

theorem find_exact_update_consumer_ne (l : List (String × StreamSt))
    (nm : String) (ts : Option ℤ) (x : String) (hne : x ≠ nm) :
    find_exact (update_consumer l nm ts) x = find_exact l x := by
  unfold find_exact update_consumer
  rw [find?_map_fst_preserving _ (upd_cons_fun_fst nm ts) x]
  cases hf : l.find? (fun p => p.1 == x) with
  | none => rfl
  | some e =>
      have hex : e.1 = x := by simpa using List.find?_some hf
      have hni : e.1 ≠ nm := by
        rw [hex]
        exact hne
      simp [hni]

theorem find_exact_update_consumer_self (l : List (String × StreamSt))
    (nm : String) (ts : Option ℤ) :
    find_exact (update_consumer l nm ts) nm =
      (find_exact l nm).map
        (fun e => (e.1, { e.2 with consumer_ts := ts })) := by
  unfold find_exact update_consumer
  rw [find?_map_fst_preserving _ (upd_cons_fun_fst nm ts) nm]
  cases hf : l.find? (fun p => p.1 == nm) with
  | none => rfl
  | some e =>
      have hex : e.1 = nm := by simpa using List.find?_some hf
      simp [hex]

theorem goodStreams_update_consumer (l : List (String × StreamSt))
    (nm : String) (ts : Option ℤ) (hg : GoodStreams l) :
    GoodStreams (update_consumer l nm ts) := by
  obtain ⟨hlow, hnd⟩ := hg
  constructor
  · intro e he
    rcases List.mem_map.mp he with ⟨e0, he0, rfl⟩
    rw [upd_cons_fun_fst nm ts e0]
    exact hlow e0 he0
  · have hm : (update_consumer l nm ts).map Prod.fst = l.map Prod.fst := by
      unfold update_consumer
      rw [List.map_map]
      exact List.map_congr_left (fun e _ => upd_cons_fun_fst nm ts e)
    rw [hm]
    exact hnd

theorem goodStreams_update_producer (l : List (String × StreamSt))
    (nm : String) (ts : ℤ) (hg : GoodStreams l)
    (hnm : nm.toLower = nm) :
    GoodStreams (update_producer l nm ts) := by
  obtain ⟨hlow, hnd⟩ := hg
  unfold update_producer
  by_cases hany : l.any (fun p => p.1 == nm) = true
  · simp only [hany, if_true]
    constructor
    · intro e he
      rcases List.mem_map.mp he with ⟨e0, he0, rfl⟩
      rw [upd_prod_fun_fst nm ts e0]
      exact hlow e0 he0
    · have hm : (l.map (fun p =>
          if p.1 == nm then (p.1, { p.2 with producer_ts := some ts })
          else p)).map Prod.fst = l.map Prod.fst := by
        rw [List.map_map]
        exact List.map_congr_left (fun e _ => upd_prod_fun_fst nm ts e)
      rw [hm]
      exact hnd
  · rw [if_neg hany]
    constructor
    · intro e he
      rcases List.mem_append.mp he with h | h
      · exact hlow e h
      · simp only [List.mem_singleton] at h
        subst h
        exact hnm
    · rw [List.map_append]
      simp only [List.map_cons, List.map_nil]
      rw [List.nodup_append]
      refine ⟨hnd, List.nodup_singleton nm, ?_⟩
      intro x hx
      simp only [List.mem_singleton]
      intro hxnm
      subst hxnm
      rcases List.mem_map.mp hx with ⟨e0, he0, he0x⟩
      have hb : (e0.1 == x) = true := by simpa using he0x
      exact absurd (List.any_eq_true.mpr ⟨e0, he0, hb⟩) hany

theorem find_by_name_good :
    ∀ (l : List (String × StreamSt)) (nm : String),
      (∀ e ∈ l, e.1.toLower = e.1) → nm.toLower = nm →
      find_by_name l nm = (find_exact l nm).map Prod.snd := by
  intro l nm
  induction l with
  | nil => intro _ _; rfl
  | cons e rest ih =>
      intro hg hnm
      have he : e.1.toLower = e.1 := hg e (by simp)
      unfold find_by_name find_exact
      simp only [List.find?_cons, he, hnm]
      cases hx : (e.1 == nm) with
      | true => simp
      | false =>
          simp only [hx]
          have hrest := ih (fun x hx2 => hg x (by simp [hx2])) hnm
          unfold find_by_name find_exact at hrest
          simp only [hnm] at hrest
          exact hrest

/-! ## Second-pass idempotence of the hourly aggregation stage -/

theorem hourly_agg_step_streetlamps (s : PipelineSt) (d : String) :
    (hourly_agg_step s d).1.streetlamps = s.streetlamps := by
  unfold hourly_agg_step
  cases get_hourly_range s (hourly_stream_name d) d with
  | none => rfl
  | some r => cases r with | mk t0 t1 => rfl

theorem hourly_agg_step_states (s : PipelineSt) (d : String) :
    (hourly_agg_step s d).1.streetlamp_states = s.streetlamp_states := by
  unfold hourly_agg_step
  cases get_hourly_range s (hourly_stream_name d) d with
  | none => rfl
  | some r => cases r with | mk t0 t1 => rfl

theorem goodStreams_hourly_step (s : PipelineSt) (d : String)
    (hG : GoodStreams s.stream_states)
    (hdn : (daily_stream_name d).toLower = daily_stream_name d) :
    GoodStreams (hourly_agg_step s d).1.stream_states := by
  cases h : get_hourly_range s (hourly_stream_name d) d with
  | none => rw [hourly_agg_step_none s d h]; exact hG
  | some r =>
      cases r with
      | mk t0 t1 =>
          rw [hourly_agg_step_some s d t0 t1 h]
          exact goodStreams_update_producer _ _ _
            (goodStreams_update_consumer _ _ _ hG) hdn

theorem get_hourly_range_congr (s s' : PipelineSt) (strname dev : String)
    (h1 : find_by_name s'.stream_states strname =
      find_by_name s.stream_states strname)
    (h2 : s'.streetlamp_states = s.streetlamp_states) :
    get_hourly_range s' strname dev = get_hourly_range s strname dev := by
  unfold get_hourly_range
  rw [h1, h2]

theorem find_by_name_hourly_step (s : PipelineSt) (d' dev : String)
    (hG : GoodStreams s.stream_states)
    (hx : (hourly_stream_name dev).toLower = hourly_stream_name dev)
    (hdn : (daily_stream_name d').toLower = daily_stream_name d')
    (hne : dev ≠ d') :
    find_by_name (hourly_agg_step s d').1.stream_states
        (hourly_stream_name dev) =
      find_by_name s.stream_states (hourly_stream_name dev) := by
  cases h : get_hourly_range s (hourly_stream_name d') d' with
  | none => rw [hourly_agg_step_none s d' h]
  | some r =>
      cases r with
      | mk t0 t1 =>
          rw [hourly_agg_step_some s d' t0 t1 h]
          have hG1 := goodStreams_update_consumer s.stream_states
            (hourly_stream_name d') (some t1) hG
          have hG2 := goodStreams_update_producer _
            (daily_stream_name d') (iRoundDay t1) hG1 hdn
          rw [find_by_name_good _ _ hG2.1 hx,
            find_exact_update_producer_ne _ _ _ _
              (hourly_ne_daily dev d'),
            find_exact_update_consumer_ne _ _ _ _
              (fun hh => hne (hourly_stream_name_inj hh)),
            ← find_by_name_good _ _ hG.1 hx]

theorem get_hourly_range_producer (s : PipelineSt) (strname dev : String)
    (t0 t1 : ℤ)
    (h : get_hourly_range s strname dev = some (t0, t1)) :
    ∃ st, find_by_name s.stream_states strname = some st ∧
      st.producer_ts = some t1 := by
  unfold get_hourly_range at h
  cases hf : find_by_name s.stream_states strname with
  | none => rw [hf] at h; exact absurd h (by simp)
  | some st =>
      rw [hf] at h
      dsimp only at h
      refine ⟨st, rfl, ?_⟩
      cases hp : st.producer_ts with
      | none => rw [hp] at h; exact absurd h (by simp)
      | some t1' =>
          rw [hp] at h
          dsimp only at h
          cases hcst : st.consumer_ts with
          | some c =>
              rw [hcst] at h
              dsimp only at h
              by_cases ht0 : c = t1'
              · rw [if_pos ht0] at h; exact absurd h (by simp)
              · rw [if_neg ht0] at h
                have hpair := Option.some.inj h
                injection hpair with h1 h2
                rw [h2]
          | none =>
              rw [hcst] at h
              try dsimp only at h
              cases ho : find_oldest_by_dev_eui s.streetlamp_states dev with
              | none => rw [ho] at h; exact absurd h (by simp)
              | some oss =>
                  rw [ho] at h
                  simp only [Option.map_some'] at h
                  by_cases ht0 : iRoundHour oss.time = t1'
                  · rw [if_pos ht0] at h; exact absurd h (by simp)
                  · rw [if_neg ht0] at h
                    have hpair := Option.some.inj h
                    injection hpair with h1 h2
                    rw [h2]

theorem hourly_step_makes_done (s : PipelineSt) (dev : String)
    (hG : GoodStreams s.stream_states)
    (hx : (hourly_stream_name dev).toLower = hourly_stream_name dev)
    (hdn : (daily_stream_name dev).toLower = daily_stream_name dev) :
    get_hourly_range (hourly_agg_step s dev).1 (hourly_stream_name dev)
      dev = none := by
  cases h : get_hourly_range s (hourly_stream_name dev) dev with
  | none => rw [hourly_agg_step_none s dev h]; exact h
  | some r =>
      cases r with
      | mk t0 t1 =>
          obtain ⟨st, hf, hp⟩ := get_hourly_range_producer s _ dev t0 t1 h
          rw [hourly_agg_step_some s dev t0 t1 h]
          have hG1 := goodStreams_update_consumer s.stream_states
            (hourly_stream_name dev) (some t1) hG
          have hG2 := goodStreams_update_producer _
            (daily_stream_name dev) (iRoundDay t1) hG1 hdn
          have hfe0 := find_by_name_good s.stream_states
            (hourly_stream_name dev) hG.1 hx
          rw [hf] at hfe0
          unfold get_hourly_range
          rw [find_by_name_good _ _ hG2.1 hx,
            find_exact_update_producer_ne _ _ _ _ (hourly_ne_daily dev dev),
            find_exact_update_consumer_self]
          cases hfx : find_exact s.stream_states (hourly_stream_name dev) with
          | none => rw [hfx] at hfe0; exact absurd hfe0 (by simp)
          | some e =>
              rw [hfx] at hfe0
              have hest : st = e.2 := by simpa using hfe0
              simp only [Option.map_some']
              try dsimp only
              rw [← hest, hp]
              simp

theorem done_stable (s : PipelineSt) (d' dev : String)
    (hG : GoodStreams s.stream_states)
    (hx : (hourly_stream_name dev).toLower = hourly_stream_name dev)
    (hdn : (daily_stream_name d').toLower = daily_stream_name d')
    (hdone : get_hourly_range s (hourly_stream_name dev) dev = none) :
    get_hourly_range (hourly_agg_step s d').1 (hourly_stream_name dev)
      dev = none := by
  by_cases hdd : dev = d'
  · subst hdd
    rw [hourly_agg_step_none s dev hdone]
    exact hdone
  · rw [get_hourly_range_congr s (hourly_agg_step s d').1
      (hourly_stream_name dev) dev
      (find_by_name_hourly_step s d' dev hG hx hdn hdd)
      (hourly_agg_step_states s d')]
    exact hdone

theorem done_stable_devs (s : PipelineSt) (ds : List String)
    (dev : String)
    (hG : GoodStreams s.stream_states)
    (hx : (hourly_stream_name dev).toLower = hourly_stream_name dev)
    (hld : ∀ d ∈ ds, (daily_stream_name d).toLower = daily_stream_name d)
    (hdone : get_hourly_range s (hourly_stream_name dev) dev = none) :
    get_hourly_range (hourly_aggregate_devs s ds).1
      (hourly_stream_name dev) dev = none := by
  induction ds generalizing s with
  | nil => exact hdone
  | cons d rest ih =>
      rw [hourly_aggregate_devs_cons]
      exact ih (hourly_agg_step s d).1
        (goodStreams_hourly_step s d hG (hld d (by simp)))
        (fun d2 h2 => hld d2 (by simp [h2]))
        (done_stable s d dev hG hx (hld d (by simp)) hdone)

theorem hourly_devs_all_done (s : PipelineSt) (ds : List String)
    (hG : GoodStreams s.stream_states)
    (hlh : ∀ d ∈ ds,
      (hourly_stream_name d).toLower = hourly_stream_name d)
    (hld : ∀ d ∈ ds, (daily_stream_name d).toLower = daily_stream_name d) :
    GoodStreams (hourly_aggregate_devs s ds).1.stream_states ∧
    (hourly_aggregate_devs s ds).1.streetlamps = s.streetlamps ∧
    ∀ d ∈ ds, get_hourly_range (hourly_aggregate_devs s ds).1
      (hourly_stream_name d) d = none := by
  induction ds generalizing s with
  | nil => exact ⟨hG, rfl, by simp⟩
  | cons d rest ih =>
      have hGd : GoodStreams (hourly_agg_step s d).1.stream_states :=
        goodStreams_hourly_step s d hG (hld d (by simp))
      obtain ⟨iG, iL, iD⟩ := ih (hourly_agg_step s d).1 hGd
        (fun d2 h2 => hlh d2 (by simp [h2]))
        (fun d2 h2 => hld d2 (by simp [h2]))
      rw [hourly_aggregate_devs_cons]
      refine ⟨iG, by rw [iL, hourly_agg_step_streetlamps], ?_⟩
      intro d2 h2
      rcases List.mem_cons.mp h2 with rfl | h2
      · exact done_stable_devs (hourly_agg_step s d2).1 rest d2 hGd
          (hlh d2 (by simp)) (fun d3 h3 => hld d3 (by simp [h3]))
          (hourly_step_makes_done s d2 hG (hlh d2 (by simp))
            (hld d2 (by simp)))
      · exact iD d2 h2

theorem hourly_devs_noop (s : PipelineSt) (ds : List String)
    (h : ∀ d ∈ ds, get_hourly_range s (hourly_stream_name d) d = none) :
    hourly_aggregate_devs s ds = (s, 0) := by
  induction ds with
  | nil => rfl
  | cons d rest ih =>
      rw [hourly_aggregate_devs_cons, hourly_agg_step_none s d
        (h d (by simp))]
      rw [ih (fun d2 h2 => h d2 (by simp [h2]))]
      rfl

/-- Claim C7: running the hourly aggregation pass a second time over an
unchanged watermark range is a no-op: the first pass left every
device's hourly consumer equal to its producer, so the second pass
computes `t0 == t1` for every device, skips them all, writes no rows,
returns count 0 and leaves the state (all rollup column values
included) unchanged.  The well-formedness hypotheses say the watermark
table holds distinct lower-case names and the stream names of the
registered devices are lower-case, as every name the code writes
(`streetlamp:state:<resolution>:<eui>`) is. -/
theorem second_pass_noop (s : PipelineSt)
    (hG : GoodStreams s.stream_states)
    (hlh : ∀ d ∈ s.streetlamps,
      (hourly_stream_name d).toLower = hourly_stream_name d)
    (hld : ∀ d ∈ s.streetlamps,
      (daily_stream_name d).toLower = daily_stream_name d) :
    hourly_aggregate (hourly_aggregate s).1 =
      ((hourly_aggregate s).1, 0) := by
  obtain ⟨hG1, hL1, hD⟩ := hourly_devs_all_done s s.streetlamps hG hlh hld
  unfold hourly_aggregate
  rw [hL1]
  exact hourly_devs_noop _ _ hD

theorem second_pass_noop_witness :
    GoodStreams c7_state.stream_states ∧
    (∀ d ∈ c7_state.streetlamps,
      (hourly_stream_name d).toLower = hourly_stream_name d) ∧
    (∀ d ∈ c7_state.streetlamps,
      (daily_stream_name d).toLower = daily_stream_name d) ∧
    hourly_aggregate (hourly_aggregate c7_state).1 =
      ((hourly_aggregate c7_state).1, 0) := by
  have hw1 : GoodStreams c7_state.stream_states := by
    constructor
    · intro e he
      simp only [c7_state, List.mem_singleton] at he
      subst he
      with_unfolding_all rfl
    · simp [c7_state]
  have hw2 : ∀ d ∈ c7_state.streetlamps,
      (hourly_stream_name d).toLower = hourly_stream_name d := by
    intro d hd
    simp only [c7_state, List.mem_singleton] at hd
    subst hd
    with_unfolding_all rfl
  have hw3 : ∀ d ∈ c7_state.streetlamps,
      (daily_stream_name d).toLower = daily_stream_name d := by
    intro d hd
    simp only [c7_state, List.mem_singleton] at hd
    subst hd
    with_unfolding_all rfl
  exact ⟨hw1, hw2, hw3, second_pass_noop c7_state hw1 hw2 hw3⟩

/-! ## Producer-watermark advancement (claim C8) -/

theorem producer_view_update_consumer (l : List (String × StreamSt))
    (nm : String) (ts : Option ℤ) (x : String) :
    (find_exact (update_consumer l nm ts) x).map
      (fun e => e.2.producer_ts) =
      (find_exact l x).map (fun e => e.2.producer_ts) := by
  by_cases hx : x = nm
  · subst hx
    rw [find_exact_update_consumer_self]
    cases find_exact l x <;> rfl
  · rw [find_exact_update_consumer_ne l nm ts x hx]

/-- Claim C8: a stage that processes a device with a pending range
through upper bound `t1` advances the producer watermark of the next
resolution to `t1` truncated to that resolution's boundary: the hourly
stage sets the daily producer to the day-truncation of `t1`, the daily
stage sets the weekly producer to the week-truncation and the monthly
producer to the month-truncation of its `t1`, and the weekly and
monthly stages leave every producer watermark unchanged; concretely, a
day truncation of 2024-03-01T05:00:00 (wall seconds) yields
2024-03-01T00:00:00. -/
theorem producer_watermark_advance (s : PipelineSt) (dev : String)
    (t0 t1 u0 u1 : ℤ)
    (hh : get_hourly_range s (hourly_stream_name dev) dev = some (t0, t1))
    (hd : get_daily_range s (daily_stream_name dev) dev = some (u0, u1)) :
    ((find_exact (hourly_agg_step s dev).1.stream_states
        (daily_stream_name dev)).map (fun e => e.2.producer_ts) =
      some (some (iRoundDay t1))) ∧
    ((find_exact (daily_agg_step s dev).1.stream_states
        (weekly_stream_name dev)).map (fun e => e.2.producer_ts) =
      some (some (iRoundWeek u1))) ∧
    ((find_exact (daily_agg_step s dev).1.stream_states
        (monthly_stream_name dev)).map (fun e => e.2.producer_ts) =
      some (some (iRoundMonth u1))) ∧
    (∀ x, (find_exact (weekly_agg_step s dev).1.stream_states x).map
        (fun e => e.2.producer_ts) =
      (find_exact s.stream_states x).map (fun e => e.2.producer_ts)) ∧
    (∀ x, (find_exact (monthly_agg_step s dev).1.stream_states x).map
        (fun e => e.2.producer_ts) =
      (find_exact s.stream_states x).map (fun e => e.2.producer_ts)) ∧
    iRoundDay (daysFromCivil 2024 3 1 * 86400 + 5 * 3600) =
      daysFromCivil 2024 3 1 * 86400 := by
  refine ⟨?_, ?_, ?_, ?_, ?_, by decide⟩
  · rw [hourly_agg_step_some s dev t0 t1 hh,
      find_exact_update_producer_self]
    cases find_exact (update_consumer s.stream_states
      (hourly_stream_name dev) (some t1)) (daily_stream_name dev) <;> rfl
  · rw [daily_agg_step_some s dev u0 u1 hd,
      find_exact_update_producer_ne _ _ _ _ (weekly_ne_monthly dev dev),
      find_exact_update_producer_self]
    cases find_exact (update_consumer s.stream_states
      (daily_stream_name dev) (some u1)) (weekly_stream_name dev) <;> rfl
  · rw [daily_agg_step_some s dev u0 u1 hd,
      find_exact_update_producer_self]
    cases find_exact (update_producer (update_consumer s.stream_states
        (daily_stream_name dev) (some u1)) (weekly_stream_name dev)
        (iRoundWeek u1)) (monthly_stream_name dev) <;> rfl
  · intro x
    cases h : get_weekly_range s (weekly_stream_name dev) dev with
    | none => rw [weekly_agg_step_none s dev h]
    | some r =>
        cases r with
        | mk v0 v1 =>
            rw [weekly_agg_step_some s dev v0 v1 h]
            exact producer_view_update_consumer _ _ _ _
  · intro x
    cases h : get_monthly_range s (monthly_stream_name dev) dev with
    | none => rw [monthly_agg_step_none s dev h]
    | some r =>
        cases r with
        | mk v0 v1 =>
            rw [monthly_agg_step_some s dev v0 v1 h]
            exact producer_view_update_consumer _ _ _ _

theorem producer_watermark_advance_witness :
    get_hourly_range c8_state (hourly_stream_name "d1") "d1" =
      some (3600, 7200) ∧
    get_daily_range c8_state (daily_stream_name "d1") "d1" =
      some (0, 86400) ∧
    (((find_exact (hourly_agg_step c8_state "d1").1.stream_states
        (daily_stream_name "d1")).map (fun e => e.2.producer_ts) =
      some (some (iRoundDay 7200))) ∧
    ((find_exact (daily_agg_step c8_state "d1").1.stream_states
        (weekly_stream_name "d1")).map (fun e => e.2.producer_ts) =
      some (some (iRoundWeek 86400))) ∧
    ((find_exact (daily_agg_step c8_state "d1").1.stream_states
        (monthly_stream_name "d1")).map (fun e => e.2.producer_ts) =
      some (some (iRoundMonth 86400))) ∧
    (∀ x, (find_exact (weekly_agg_step c8_state "d1").1.stream_states
        x).map (fun e => e.2.producer_ts) =
      (find_exact c8_state.stream_states x).map
        (fun e => e.2.producer_ts)) ∧
    (∀ x, (find_exact (monthly_agg_step c8_state "d1").1.stream_states
        x).map (fun e => e.2.producer_ts) =
      (find_exact c8_state.stream_states x).map
        (fun e => e.2.producer_ts)) ∧
    iRoundDay (daysFromCivil 2024 3 1 * 86400 + 5 * 3600) =
      daysFromCivil 2024 3 1 * 86400) := by
  have hh : get_hourly_range c8_state (hourly_stream_name "d1") "d1" =
      some (3600, 7200) := by
    with_unfolding_all rfl
  have hd : get_daily_range c8_state (daily_stream_name "d1") "d1" =
      some (0, 86400) := by
    with_unfolding_all rfl
  exact ⟨hh, hd,
    producer_watermark_advance c8_state "d1" 3600 7200 0 86400 hh hd⟩
